import Mathlib

/-!
Shallow embedding of the `colorspace` Go package (color conversion,
interpolation and sRGB gamut mapping) over the real numbers, together with
proofs about the claims of its specification.

The source file contains two revisions of the package.  The first revision is
embedded in the root `Colorspace` namespace; the handful of functions whose
second-revision body differs (`CIELCH.CIELAB`, `CIELCH.Lerp`, `OKLCH.Lerp`,
the gamut mapper guard) are embedded in the nested namespace `Colorspace.V2`.

Machine `float32` arithmetic is idealized as exact real arithmetic; every
numeric literal of the source appears verbatim as an exact rational constant.
-/

namespace Colorspace

noncomputable section

/-- Modelled from the spec: the vector kernel's 3-component vector
(`ms3.Vec` of the external geometry dependency). -/
structure Vec3 where
  x : ℝ
  y : ℝ
  z : ℝ

/-- Modelled from the spec: the vector kernel's 3×3 matrix (`ms3.Mat3`),
stored row major exactly as the `ms3.NewMat3` literals are listed in the
source. -/
structure Mat3 where
  m00 : ℝ
  m01 : ℝ
  m02 : ℝ
  m10 : ℝ
  m11 : ℝ
  m12 : ℝ
  m20 : ℝ
  m21 : ℝ
  m22 : ℝ

/-- Modelled from the spec: matrix–vector multiply (`ms3.MulMatVec`).  The
row-major reading is fixed by the repository's own test vector: the first
column of `linSRGBToXYZ` must give CIEXYZ ≈ (0.41239, 0.21264, 0.01933) for
pure red. -/
def MulMatVec (m : Mat3) (v : Vec3) : Vec3 :=
  ⟨m.m00 * v.x + m.m01 * v.y + m.m02 * v.z,
   m.m10 * v.x + m.m11 * v.y + m.m12 * v.z,
   m.m20 * v.x + m.m21 * v.y + m.m22 * v.z⟩

/-- Modelled from the spec: componentwise division (`ms3.DivElem`). -/
def DivElem (a b : Vec3) : Vec3 := ⟨a.x / b.x, a.y / b.y, a.z / b.z⟩

/-- Modelled from the spec: componentwise product (`ms3.MulElem`). -/
def MulElem (a b : Vec3) : Vec3 := ⟨a.x * b.x, a.y * b.y, a.z * b.z⟩

/-- Modelled from the spec: vector difference (`ms3.Sub`). -/
def Sub (a b : Vec3) : Vec3 := ⟨a.x - b.x, a.y - b.y, a.z - b.z⟩

/-- Modelled from the spec: dot product (`ms3.Dot`). -/
def Dot (a b : Vec3) : ℝ := a.x * b.x + a.y * b.y + a.z * b.z

/-- Modelled from the spec: scalar clamp (`ms1.Clamp`). -/
def Clamp (v lo hi : ℝ) : ℝ := min (max v lo) hi

/-- Modelled from the spec: linear interpolation (`ms1.Interp`),
`result = from + v·(to − from)` (§4.2 of the spec). -/
def Interp (a b v : ℝ) : ℝ := a + v * (b - a)

/-- Modelled from the spec: the shorter-arc delta correction of
`ms1.InterpWrap`: the raw delta is reduced by `w` when it exceeds `+w/2` and
increased by `w` when below `−w/2`. -/
def interpWrapDelta (w a b : ℝ) : ℝ :=
  if b - a > w / 2 then b - a - w
  else if b - a < -(w / 2) then b - a + w
  else b - a

/-- Modelled from the spec: the final re-normalization of `ms1.InterpWrap`
into `[0, w)`. -/
def interpWrapNorm (w r : ℝ) : ℝ :=
  if r ≥ w then r - w else if r < 0 then r + w else r

/-- Modelled from the spec: circular (wraparound) interpolation
(`ms1.InterpWrap`) over a period `w` (§4.2 of the spec, with `w = 360`). -/
def InterpWrap (w a b v : ℝ) : ℝ :=
  interpWrapNorm w (a + v * interpWrapDelta w a b)

/-- Go `math32.Cbrt`: sign-preserving real cube root. -/
noncomputable def Cbrt (x : ℝ) : ℝ :=
  if x < 0 then -((-x) ^ ((3 : ℝ)⁻¹)) else x ^ ((3 : ℝ)⁻¹)

/-- Go `math32.Atan2 y x`: the angle of the point `(x, y)` in `(−π, π]`,
embedded as the complex argument. -/
noncomputable def Atan2 (y x : ℝ) : ℝ := Complex.arg ⟨x, y⟩

/-- OKLAB color (first revision, `color.go`). -/
structure OKLAB where
  L : ℝ
  A : ℝ
  B : ℝ

/-- OKLCH, cylindrical representation of OKLAB. -/
structure OKLCH where
  L : ℝ
  C : ℝ
  H : ℝ

/-- CIELCH, cylindrical representation of CIELAB. -/
structure CIELCH where
  L : ℝ
  C : ℝ
  H : ℝ

/-- CIELAB color. -/
structure CIELAB where
  L : ℝ
  A : ℝ
  B : ℝ

/-- Gamma-encoded sRGB color. -/
structure SRGB where
  R : ℝ
  G : ℝ
  B : ℝ

/-- Linear-light sRGB color. -/
structure LSRGB where
  R : ℝ
  G : ℝ
  B : ℝ

/-- CIE 1931 XYZ tristimulus color. -/
structure CIEXYZ where
  X : ℝ
  Y : ℝ
  Z : ℝ

/-- HSV color; `H` in degrees, `S`, `V` in `[0,1]`. -/
structure HSV where
  H : ℝ
  S : ℝ
  V : ℝ

def undefinedHue : ℝ := 0.0
def epsUnit : ℝ := 1e-5
def d50x : ℝ := 0.3457 / 0.3585
def d50z : ℝ := (1.0 - 0.3457 - 0.3585) / 0.3585

/-- `d50 = IlluminantD50(1).vec()`. -/
def d50 : Vec3 := ⟨d50x, 1, d50z⟩

def linSRGBToXYZ : Mat3 :=
  ⟨506752 / 1228815, 87881 / 245763, 12673 / 70218,
   87098 / 409605, 175762 / 245763, 12673 / 175545,
   7918 / 409605, 87881 / 737289, 1001167 / 1053270⟩

def xyzToLinSRGB : Mat3 :=
  ⟨12831 / 3959, -329 / 214, -1974 / 3959,
   -851781 / 878810, 1648619 / 878810, 36519 / 878810,
   705 / 12673, -2585 / 12673, 705 / 667⟩

def xyzToLMS : Mat3 :=
  ⟨0.8190224379967030, 0.3619062600528904, -0.1288737815209879,
   0.0329836539323885, 0.9292868615863434, 0.0361446663506424,
   0.0481771893596242, 0.2642395317527308, 0.6335478284694309⟩

def lmsToOKLAB : Mat3 :=
  ⟨0.2104542683093140, 0.7936177747023054, -0.0040720430116193,
   1.9779985324311684, -2.4285922420485799, 0.4505937096174110,
   0.0259040424655478, 0.7827717124575296, -0.8086757549230774⟩

def lmsToXYZ : Mat3 :=
  ⟨1.2268798758459243, -0.5578149944602171, 0.2813910456659647,
   -0.0405757452148008, 1.1122868032803170, -0.0717110580655164,
   -0.0763729366746601, -0.4214933324022432, 1.5869240198367816⟩

def oklabToLMS : Mat3 :=
  ⟨1.0000000000000000, 0.3963377773761749, 0.2158037573099136,
   1.0000000000000000, -0.1055613458156586, -0.0638541728258133,
   1.0000000000000000, -0.0894841775298119, -1.2914855480194092⟩

def SRGB.vec (c : SRGB) : Vec3 := ⟨c.R, c.G, c.B⟩
def LSRGB.vec (c : LSRGB) : Vec3 := ⟨c.R, c.G, c.B⟩
def CIEXYZ.vec (c : CIEXYZ) : Vec3 := ⟨c.X, c.Y, c.Z⟩
def CIELAB.vec (c : CIELAB) : Vec3 := ⟨c.L, c.A, c.B⟩
def OKLAB.vec (c : OKLAB) : Vec3 := ⟨c.L, c.A, c.B⟩

/-- Go sign helper `math32.Copysign(1, v)` on reals (no negative zero). -/
def signOf (v : ℝ) : ℝ := if v < 0 then -1 else 1

/-- `transferFunc`, the sRGB decoding gamma function. -/
noncomputable def transferFunc (v : ℝ) : ℝ :=
  if |v| ≤ 0.04045 then v / 12.92
  else signOf v * ((|v| + 0.055) / 1.055) ^ (2.4 : ℝ)

/-- `invTransferFunc`, the sRGB encoding gamma function (IEC2003). -/
noncomputable def invTransferFunc (v : ℝ) : ℝ :=
  if |v| ≤ 0.0031308 then 12.92 * v
  else signOf v * (1.055 * |v| ^ ((2.4 : ℝ)⁻¹) - 0.055)

noncomputable def SRGB.LSRGB (c : SRGB) : LSRGB :=
  ⟨transferFunc c.R, transferFunc c.G, transferFunc c.B⟩

noncomputable def LSRGB.SRGB (c : LSRGB) : SRGB :=
  ⟨invTransferFunc c.R, invTransferFunc c.G, invTransferFunc c.B⟩

/-- Builds a `CIEXYZ` from a kernel vector. -/
def CIEXYZ.ofVec (v : Vec3) : CIEXYZ := ⟨v.x, v.y, v.z⟩

/-- Builds an `LSRGB` from a kernel vector. -/
def LSRGB.ofVec (v : Vec3) : LSRGB := ⟨v.x, v.y, v.z⟩

/-- Builds an `OKLAB` from a kernel vector. -/
def OKLAB.ofVec (v : Vec3) : OKLAB := ⟨v.x, v.y, v.z⟩

/-- Componentwise cube root, the nonlinearity of `CIEXYZ.OKLAB`. -/
def cbrtVec (v : Vec3) : Vec3 := ⟨Cbrt v.x, Cbrt v.y, Cbrt v.z⟩

/-- Componentwise cube, the nonlinearity of `OKLAB.CIEXYZ`. -/
def cubeVec (v : Vec3) : Vec3 :=
  ⟨v.x * v.x * v.x, v.y * v.y * v.y, v.z * v.z * v.z⟩

def LSRGB.CIEXYZ (c : LSRGB) : CIEXYZ :=
  CIEXYZ.ofVec (MulMatVec linSRGBToXYZ c.vec)

def CIEXYZ.LSRGB (c : CIEXYZ) : LSRGB :=
  LSRGB.ofVec (MulMatVec xyzToLinSRGB c.vec)

noncomputable def CIEXYZ.OKLAB (c : CIEXYZ) : OKLAB :=
  OKLAB.ofVec (MulMatVec lmsToOKLAB (cbrtVec (MulMatVec xyzToLMS c.vec)))

def OKLAB.CIEXYZ (c : OKLAB) : CIEXYZ :=
  CIEXYZ.ofVec (MulMatVec lmsToXYZ (cubeVec (MulMatVec oklabToLMS c.vec)))

/-- The `atan2`-derived hue in degrees, normalized into `[0,360)` by a
single `+360` correction of negative angles, used by `OKLAB.OKLCH` and
`CIELAB.CIELCH`. -/
noncomputable def hueDeg (bb aa : ℝ) : ℝ :=
  if Atan2 bb aa * 180 / Real.pi < 0 then Atan2 bb aa * 180 / Real.pi + 360
  else Atan2 bb aa * 180 / Real.pi

/-- `OKLAB.OKLCH`: hue from `atan2` in degrees normalized to `[0,360)`,
chroma `√(A²+B²)`, achromatic sentinel hue for chroma ≤ 4e-6. -/
noncomputable def OKLAB.OKLCH (c : OKLAB) : OKLCH :=
  ⟨c.L, Real.sqrt (c.A * c.A + c.B * c.B),
   if Real.sqrt (c.A * c.A + c.B * c.B) ≤ 0.000004 then undefinedHue
   else hueDeg c.B c.A⟩

/-- `OKLCH.OKLAB`: `A = C·cos(H°)`, `B = C·sin(H°)`. -/
noncomputable def OKLCH.OKLAB (c : OKLCH) : OKLAB :=
  ⟨c.L, c.C * Real.cos (c.H * Real.pi / 180),
   c.C * Real.sin (c.H * Real.pi / 180)⟩

/-- CIE piecewise forward function used by `CIEXYZ.CIELAB`. -/
noncomputable def labF (x : ℝ) : ℝ :=
  if x > 216 / 24389 then Cbrt x else ((24389 / 27) * x + 16) / 116

/-- `CIEXYZ.CIELAB` (first revision): scales by the D50 white with
componentwise division. -/
noncomputable def CIEXYZ.CIELAB (c : CIEXYZ) : CIELAB :=
  ⟨116 * labF (DivElem c.vec d50).y - 16,
   500 * (labF (DivElem c.vec d50).x - labF (DivElem c.vec d50).y),
   200 * (labF (DivElem c.vec d50).y - labF (DivElem c.vec d50).z)⟩

/-- `CIELAB.CIELCH` with achromatic epsilon `0.0015`. -/
noncomputable def CIELAB.CIELCH (c : CIELAB) : CIELCH :=
  ⟨c.L, Real.sqrt (c.A * c.A + c.B * c.B),
   if Real.sqrt (c.A * c.A + c.B * c.B) ≤ 0.0015 then undefinedHue
   else hueDeg c.B c.A⟩

/-- `f1 = (L+16)/116` of `CIELAB.CIEXYZ`. -/
def labf1 (c : CIELAB) : ℝ := (c.L + 16) / 116

/-- `f0 = A/500 + f1` of `CIELAB.CIEXYZ`. -/
def labf0 (c : CIELAB) : ℝ := c.A / 500 + labf1 c

/-- `f2 = f1 - B/200` of `CIELAB.CIEXYZ`. -/
def labf2 (c : CIELAB) : ℝ := labf1 c - c.B / 200

/-- `CIELAB.CIEXYZ` (first revision), exactly as written in the source: note
the low-lightness `Y` branch computes `(116·L − 16)/κ`. -/
def CIELAB.CIEXYZ (c : CIELAB) : CIEXYZ :=
  CIEXYZ.ofVec (MulElem
    ⟨if labf0 c > 6 / 29 then labf0 c * labf0 c * labf0 c
      else (116 * labf0 c - 16) / (24389 / 27),
     if c.L > (24389 / 27) * (216 / 24389) then
        ((c.L + 16) / 116) * ((c.L + 16) / 116) * ((c.L + 16) / 116)
      else (116 * c.L - 16) / (24389 / 27),
     if labf2 c > 6 / 29 then labf2 c * labf2 c * labf2 c
      else (116 * labf2 c - 16) / (24389 / 27)⟩ d50)

/-- `DeltaE`: Euclidean distance in OKLab. -/
noncomputable def DeltaE (reference sample : OKLAB) : ℝ :=
  Real.sqrt (Dot (Sub reference.vec sample.vec) (Sub reference.vec sample.vec))

/-- `CIELCH.CIELAB` (first revision): `A = C·cos(H°)`, `B = C·sin(H°)`. -/
noncomputable def CIELCH.CIELAB (c : CIELCH) : CIELAB :=
  ⟨c.L, c.C * Real.cos (c.H * Real.pi / 180),
   c.C * Real.sin (c.H * Real.pi / 180)⟩

/-- `LSRGB.InGamut`: all channels in `[0,1]`. -/
def LSRGB.InGamut (c : LSRGB) : Prop :=
  c.R ≤ 1 ∧ c.G ≤ 1 ∧ c.B ≤ 1 ∧ 0 ≤ c.R ∧ 0 ≤ c.G ∧ 0 ≤ c.B

/-- `SRGB.InGamut`: all channels in `[0,1]`. -/
def SRGB.InGamut (c : SRGB) : Prop :=
  c.R ≤ 1 ∧ c.G ≤ 1 ∧ c.B ≤ 1 ∧ 0 ≤ c.R ∧ 0 ≤ c.G ∧ 0 ≤ c.B

def LSRGB.ClipToGamut (c : LSRGB) : LSRGB :=
  ⟨Clamp c.R 0 1, Clamp c.G 0 1, Clamp c.B 0 1⟩

def SRGB.ClipToGamut (c : SRGB) : SRGB :=
  ⟨Clamp c.R 0 1, Clamp c.G 0 1, Clamp c.B 0 1⟩

/-- `CIELCH.Lerp` (first revision): achromatic special-casing with epsilon
4e-6, then componentwise interpolation with wraparound hue. -/
def CIELCH.Lerp (f t : CIELCH) (v : ℝ) : CIELCH :=
  if f.C < 0.000004 then
    if t.C < 0.000004 then
      ⟨Interp f.L t.L v, 0, undefinedHue⟩
    else
      ⟨Interp f.L t.L v, Interp f.C t.C v, InterpWrap 360 t.H t.H v⟩
  else if t.C < 0.000004 then
    ⟨Interp f.L t.L v, Interp f.C t.C v, InterpWrap 360 f.H f.H v⟩
  else
    ⟨Interp f.L t.L v, Interp f.C t.C v, InterpWrap 360 f.H t.H v⟩

/-- `OKLCH.Lerp` (first revision) delegates to `CIELCH.Lerp` through the
field-preserving cast. -/
def OKLCH.Lerp (f t : OKLCH) (v : ℝ) : OKLCH :=
  let r := CIELCH.Lerp ⟨f.L, f.C, f.H⟩ ⟨t.L, t.C, t.H⟩ v
  ⟨r.L, r.C, r.H⟩

def CIELAB.Lerp (f t : CIELAB) (v : ℝ) : CIELAB :=
  ⟨Interp f.L t.L v, Interp f.A t.A v, Interp f.B t.B v⟩

def OKLAB.Lerp (f t : OKLAB) (v : ℝ) : OKLAB :=
  ⟨Interp f.L t.L v, Interp f.A t.A v, Interp f.B t.B v⟩

def CIEXYZ.Lerp (f t : CIEXYZ) (v : ℝ) : CIEXYZ :=
  ⟨Interp f.X t.X v, Interp f.Y t.Y v, Interp f.Z t.Z v⟩

def LSRGB.Lerp (f t : LSRGB) (v : ℝ) : LSRGB :=
  ⟨Interp f.R t.R v, Interp f.G t.G v, Interp f.B t.B v⟩

def SRGB.Lerp (f t : SRGB) (v : ℝ) : SRGB :=
  ⟨Interp f.R t.R v, Interp f.G t.G v, Interp f.B t.B v⟩

/-- The gamut mapper's JND threshold. -/
def JND : ℝ := 0.02

/-- The gamut mapper's binary-search tolerance. -/
def gmEps : ℝ := 0.0001

/-- State of the gamut mapper's binary-search loop: search bounds,
the chroma-reduced candidate, the last clipped color, and the
`minInGamut` flag. -/
structure GMState where
  cmin : ℝ
  cmax : ℝ
  current : OKLCH
  clipped : LSRGB
  minInGamut : Prop

/-- Midpoint chroma `0.5*(cmin+cmax)` of a loop iteration. -/
def gmChroma (s : GMState) : ℝ := 0.5 * (s.cmin + s.cmax)

/-- The candidate with its chroma set to the midpoint (`current.C = chroma`). -/
def gmCur (s : GMState) : OKLCH := ⟨s.current.L, gmChroma s, s.current.H⟩

/-- `currentRGB`, the candidate converted to linear sRGB. -/
def gmCurRGB (s : GMState) : LSRGB := (((gmCur s).OKLAB).CIEXYZ).LSRGB

/-- The clip of `currentRGB` computed inside a loop iteration. -/
def gmClipped (s : GMState) : LSRGB := (gmCurRGB s).ClipToGamut

/-- `E`, the Delta E between the clipped candidate's OKLab round trip and the
candidate, computed inside a loop iteration. -/
def gmE2 (s : GMState) : ℝ :=
  DeltaE (((gmClipped s).CIEXYZ).OKLAB) ((gmCur s).OKLAB)

/-- The value returned when the loop exits by its `cmax-cmin > eps`
condition: `clipped.CIEXYZ().OKLAB().OKLCH()`. -/
def gmExit (s : GMState) : OKLCH := ((s.clipped.CIEXYZ).OKLAB).OKLCH

open Classical in
/-- One iteration of the gamut mapper's binary-search loop body; `Sum.inl` is
an early `return`, `Sum.inr` continues with the updated state.  The source
recomputes `minInGamut` from a freshly built `OKLCH{L: current.L, C: chroma,
H: current.H}`, which is exactly `gmCur s`, so the recomputed flag is
`(gmCurRGB s).InGamut`. -/
def gmStepBody (s : GMState) : OKLCH ⊕ GMState :=
  if s.minInGamut ∧ (gmCurRGB s).InGamut then
    Sum.inr ⟨gmChroma s, s.cmax, gmCur s, s.clipped, (gmCurRGB s).InGamut⟩
  else if gmE2 s < JND then
    if JND - gmE2 s < gmEps then
      Sum.inl (((gmClipped s).CIEXYZ).OKLAB).OKLCH
    else
      Sum.inr ⟨gmChroma s, s.cmax, gmCur s, gmClipped s, (gmCurRGB s).InGamut⟩
  else
    Sum.inr ⟨s.cmin, gmChroma s, gmCur s, gmClipped s, s.minInGamut⟩

open Classical in
/-- The binary-search loop `for cmax-cmin > eps { ... }`, with explicit fuel;
`none` means the fuel ran out before the loop finished. -/
def gmLoop : ℕ → GMState → Option OKLCH
  | 0, _ => none
  | n + 1, s =>
    if s.cmax - s.cmin ≤ gmEps then some (gmExit s)
    else
      match gmStepBody s with
      | Sum.inl r => some r
      | Sum.inr t => gmLoop n t

/-- Fuel that provably suffices for the loop started from chroma `c.C`. -/
def gmFuel (c : OKLCH) : ℕ := ⌈c.C / gmEps⌉₊ + 1

/-- `clipped`, the channel-wise clip of the input's linear-RGB form computed
by the mapper before its loop. -/
def gmClip (c : OKLCH) : LSRGB := (((c.OKLAB).CIEXYZ).LSRGB).ClipToGamut

/-- `E`, the Delta E between the input and its clip's OKLab round trip,
computed by the mapper before its loop. -/
def gmE (c : OKLCH) : ℝ := DeltaE c.OKLAB (((gmClip c).CIEXYZ).OKLAB)

/-- The mapper's starting loop state `cmin=0, cmax=origin.C, minInGamut=true`. -/
def gmInit (c : OKLCH) : GMState := ⟨0, c.C, c, gmClip c, True⟩

open Classical in
/-- `OKLCH.GamutMappedLSRGB` (first revision): lightness guard against
`[0,1]`, simple-clip acceptance under the JND, then the binary search over
chroma.  The loop always terminates within `gmFuel` iterations (proved
below); `getD` supplies the loop-exit value as a never-used fallback. -/
def OKLCH.GamutMappedLSRGB (c : OKLCH) : OKLCH :=
  if c.L < 0 ∨ c.L > 1 then ⟨min (max c.L 0) 1, 0, 0⟩
  else if gmE c < JND then (((gmClip c).CIEXYZ).OKLAB).OKLCH
  else (gmLoop (gmFuel c) (gmInit c)).getD ((((gmClip c).CIEXYZ).OKLAB).OKLCH)

open Classical in
/-- `OKLCH.AutoGamutMapping` (second revision): identical to
`GamutMappedLSRGB` except that the early-return guard tests the lightness
against `[0,100]` (`origin.L < 0 || origin.L > 100`) while still clamping
into `[0,1]`. -/
def OKLCH.AutoGamutMapping (c : OKLCH) : OKLCH :=
  if c.L < 0 ∨ c.L > 100 then ⟨min (max c.L 0) 1, 0, 0⟩
  else if gmE c < JND then (((gmClip c).CIEXYZ).OKLAB).OKLCH
  else (gmLoop (gmFuel c) (gmInit c)).getD ((((gmClip c).CIEXYZ).OKLAB).OKLCH)

namespace V2

/-- `CIELCH.CIELAB` (second revision): the sin/cos assignment is swapped
relative to the first revision: `A = C·sin(H°)`, `B = C·cos(H°)`. -/
def CIELCH.CIELAB (c : Colorspace.CIELCH) : Colorspace.CIELAB :=
  ⟨c.L, c.C * Real.sin (c.H * Real.pi / 180),
   c.C * Real.cos (c.H * Real.pi / 180)⟩

/-- The shorter-arc delta correction of the second revision's hue blend. -/
def hueDelta (fh th : ℝ) : ℝ :=
  if th - fh > 180 then th - fh - 360
  else if th - fh < -180 then th - fh + 360
  else th - fh

/-- The second revision's final hue correction: `H > 360` and `H < 0` are
mapped back, `H = 360` is left untouched. -/
def hueNorm (h : ℝ) : ℝ :=
  if h > 360 then h - 360 else if h < 0 then h + 360 else h

/-- The hue-blending tail of the second revision's `CIELCH.Lerp`, reached
after the achromatic special cases. -/
def lerpChromatic (f t : Colorspace.CIELCH) (v : ℝ) : Colorspace.CIELCH :=
  ⟨Interp f.L t.L v, Interp f.C t.C v, hueNorm (f.H + v * hueDelta f.H t.H)⟩

/-- `CIELCH.Lerp` (second revision): achromatic special-casing (adopting the
other endpoint's hue), then explicit shorter-arc hue blending. -/
def CIELCH.Lerp (f t : Colorspace.CIELCH) (v : ℝ) : Colorspace.CIELCH :=
  if f.C < 0.000004 then
    if t.C < 0.000004 then
      ⟨Interp f.L t.L v, 0, undefinedHue⟩
    else
      lerpChromatic ⟨f.L, f.C, t.H⟩ t v
  else if t.C < 0.000004 then
    lerpChromatic f ⟨t.L, t.C, f.H⟩ v
  else
    lerpChromatic f t v

/-- `OKLCH.Lerp` (second revision) delegates to the second revision's
`CIELCH.Lerp` through the field-preserving cast. -/
def OKLCH.Lerp (f t : Colorspace.OKLCH) (v : ℝ) : Colorspace.OKLCH :=
  let r := V2.CIELCH.Lerp ⟨f.L, f.C, f.H⟩ ⟨t.L, t.C, t.H⟩ v
  ⟨r.L, r.C, r.H⟩

end V2

/-- An input value of Go's `color.Color` interface, modelled by the
quadruple its `RGBA()` method returns (alpha-premultiplied 16-bit
channels). -/
structure GoColor where
  r : ℕ
  g : ℕ
  b : ℕ
  a : ℕ

/-- `ColorToSRGB`: normalizes the 16-bit channels and discards alpha. -/
def ColorToSRGB (c : GoColor) : SRGB :=
  ⟨(c.r : ℝ) / 0xffff, (c.g : ℝ) / 0xffff, (c.b : ℝ) / 0xffff⟩

/-- `SRGB.RGBA` (first revision): re-encodes to 16-bit channels with a
rounding bias of `+0.5` and a constant full-opacity alpha `0xffff`.  The Go
`uint32(·)` conversion truncates; on the nonnegative reals produced here it
is the floor. -/
def SRGB.RGBA (c : SRGB) : ℕ × ℕ × ℕ × ℕ :=
  ((⌊c.R * 0xffff + 0.5⌋).toNat, (⌊c.G * 0xffff + 0.5⌋).toNat,
   (⌊c.B * 0xffff + 0.5⌋).toNat, 0xffff)

/-- `LerpSRGB` pipeline: interpolates directly in gamma-encoded sRGB. -/
def LerpSRGB (c1 c2 : GoColor) (v : ℝ) : SRGB :=
  (ColorToSRGB c1).Lerp (ColorToSRGB c2) v

/-- `LerpLSRGB` pipeline: interpolates in linear-light sRGB. -/
def LerpLSRGB (c1 c2 : GoColor) (v : ℝ) : SRGB :=
  ((((ColorToSRGB c1).LSRGB).Lerp ((ColorToSRGB c2).LSRGB) v).ClipToGamut).SRGB

/-- `LerpCIEXYZ` pipeline: interpolates in CIE XYZ. -/
def LerpCIEXYZ (c1 c2 : GoColor) (v : ℝ) : SRGB :=
  ((((((ColorToSRGB c1).LSRGB).CIEXYZ).Lerp (((ColorToSRGB c2).LSRGB).CIEXYZ)
    v).LSRGB).ClipToGamut).SRGB

/-- `LerpOKLAB` pipeline: interpolates in OKLab, gamut-maps through OKLCH,
converts back and clips. -/
def LerpOKLAB (c1 c2 : GoColor) (v : ℝ) : SRGB :=
  let o1 := ((((ColorToSRGB c1).LSRGB).CIEXYZ)).OKLAB
  let o2 := ((((ColorToSRGB c2).LSRGB).CIEXYZ)).OKLAB
  let mapped := ((o1.Lerp o2 v).OKLCH).GamutMappedLSRGB
  ((((mapped.OKLAB).CIEXYZ).LSRGB).ClipToGamut).SRGB

/-- `LerpOKLCH` pipeline: interpolates in OKLCH, gamut-maps, converts back
and clips. -/
def LerpOKLCH (c1 c2 : GoColor) (v : ℝ) : SRGB :=
  let o1 := (((((ColorToSRGB c1).LSRGB).CIEXYZ)).OKLAB).OKLCH
  let o2 := (((((ColorToSRGB c2).LSRGB).CIEXYZ)).OKLAB).OKLCH
  let mapped := (o1.Lerp o2 v).GamutMappedLSRGB
  ((((mapped.OKLAB).CIEXYZ).LSRGB).ClipToGamut).SRGB

/-- The `for h < 0 { h += 360 }` loop of `wrapHue`. -/
def wrapHueUp (h : ℝ) : ℝ :=
  if hneg : h < 0 then wrapHueUp (h + 360) else h
termination_by ⌈-h / 360⌉₊
decreasing_by
  have h1 : (0 : ℝ) < -h / 360 := by
    have : (0 : ℝ) < -h := by linarith
    positivity
  have h2 : -(h + 360) / 360 = -h / 360 - 1 := by ring
  rw [h2, Nat.lt_iff_add_one_le]
  rcases le_or_lt 1 (-h / 360) with hc | hc
  · have : (⌈-h / 360 - 1⌉₊ : ℝ) < -h / 360 := by
      calc (⌈-h / 360 - 1⌉₊ : ℝ) < (-h / 360 - 1) + 1 :=
            Nat.ceil_lt_add_one (by linarith)
        _ = -h / 360 := by ring
    have := Nat.lt_ceil.mpr this
    omega
  · have hz : ⌈-h / 360 - 1⌉₊ = 0 := Nat.ceil_eq_zero.mpr (by linarith)
    have hp : 0 < ⌈-h / 360⌉₊ := Nat.ceil_pos.mpr h1
    omega

/-- The `for h >= 360 { h -= 360 }` loop of `wrapHue`. -/
def wrapHueDown (h : ℝ) : ℝ :=
  if hge : h ≥ 360 then wrapHueDown (h - 360) else h
termination_by ⌈h / 360⌉₊
decreasing_by
  have h2 : (h - 360) / 360 = h / 360 - 1 := by ring
  rw [h2, Nat.lt_iff_add_one_le]
  have : (⌈h / 360 - 1⌉₊ : ℝ) < h / 360 := by
    calc (⌈h / 360 - 1⌉₊ : ℝ) < (h / 360 - 1) + 1 :=
          Nat.ceil_lt_add_one (by linarith)
      _ = h / 360 := by ring
  have := Nat.lt_ceil.mpr this
  omega

/-- `wrapHue` normalizes a hue into `[0, 360)` by repeatedly adding and then
repeatedly subtracting 360, exactly as the two source loops do. -/
def wrapHue (h : ℝ) : ℝ := wrapHueDown (wrapHueUp h)

/-- Go `math32.Mod(x, y)`: remainder with truncated division (sign of the
dividend). -/
def goMod (x y : ℝ) : ℝ :=
  x - y * (if x / y < 0 then (⌈x / y⌉ : ℝ) else (⌊x / y⌋ : ℝ))

/-- The sector selection of `HSV.SRGB`: `(r1, g1, b1)` as a function of the
chroma `ch`, the intermediate `x` and the scaled hue `hp`. -/
def hsvSector (ch x hp : ℝ) : Vec3 :=
  if 0 ≤ hp ∧ hp < 1 then ⟨ch, x, 0⟩
  else if 1 ≤ hp ∧ hp < 2 then ⟨x, ch, 0⟩
  else if 2 ≤ hp ∧ hp < 3 then ⟨0, ch, x⟩
  else if 3 ≤ hp ∧ hp < 4 then ⟨0, x, ch⟩
  else if 4 ≤ hp ∧ hp < 5 then ⟨x, 0, ch⟩
  else ⟨ch, 0, x⟩

/-- The chromatic branch of `HSV.SRGB` in terms of the wrapped hue `h` and
the clamped saturation `s` and value `v`: `c = v·s`, `hp = h/60`,
`x = c·(1−|mod(hp,2)−1|)`, `m = v − c`, then clip. -/
def hsvChromatic (h s v : ℝ) : SRGB :=
  (SRGB.mk
    ((hsvSector (v * s) (v * s * (1 - |goMod (h / 60) 2 - 1|)) (h / 60)).x
      + (v - v * s))
    ((hsvSector (v * s) (v * s * (1 - |goMod (h / 60) 2 - 1|)) (h / 60)).y
      + (v - v * s))
    ((hsvSector (v * s) (v * s * (1 - |goMod (h / 60) 2 - 1|)) (h / 60)).z
      + (v - v * s))).ClipToGamut

/-- `HSV.SRGB`: converts HSV to gamma-encoded sRGB. -/
def HSV.SRGB (c : HSV) : SRGB :=
  if Clamp c.S 0 1 ≤ epsUnit then
    ⟨Clamp c.V 0 1, Clamp c.V 0 1, Clamp c.V 0 1⟩
  else hsvChromatic (wrapHue c.H) (Clamp c.S 0 1) (Clamp c.V 0 1)

/-! ### Helper lemmas -/

theorem Clamp_le (v lo hi : ℝ) : Clamp v lo hi ≤ hi := min_le_right _ _

theorem le_Clamp (v lo hi : ℝ) (h : lo ≤ hi) : lo ≤ Clamp v lo hi :=
  le_min (le_max_right _ _) h

theorem Clamp_eq_hi (v lo hi : ℝ) (hlo : lo ≤ hi) (hv : hi ≤ v) :
    Clamp v lo hi = hi := by
  unfold Clamp
  rw [max_eq_left (hlo.trans hv), min_eq_right hv]

theorem Clamp_eq_self (v lo hi : ℝ) (h1 : lo ≤ v) (h2 : v ≤ hi) :
    Clamp v lo hi = v := by
  unfold Clamp
  rw [max_eq_left h1, min_eq_left h2]

theorem Clamp_eq_lo (v lo hi : ℝ) (hlo : lo ≤ hi) (hv : v ≤ lo) :
    Clamp v lo hi = lo := by
  unfold Clamp
  rw [max_eq_right hv, min_eq_left hlo]

theorem sq_bounds {a b d : ℝ} (h0 : 0 ≤ a) (h1 : a ≤ d) (h2 : d ≤ b) :
    a * a ≤ d * d ∧ d * d ≤ b * b := by
  constructor <;> nlinarith

theorem ClipToGamut_InGamut (c : LSRGB) : c.ClipToGamut.InGamut :=
  ⟨Clamp_le _ _ _, Clamp_le _ _ _, Clamp_le _ _ _,
   le_Clamp _ _ _ zero_le_one, le_Clamp _ _ _ zero_le_one,
   le_Clamp _ _ _ zero_le_one⟩

theorem srgb_ClipToGamut_InGamut (c : SRGB) : c.ClipToGamut.InGamut :=
  ⟨Clamp_le _ _ _, Clamp_le _ _ _, Clamp_le _ _ _,
   le_Clamp _ _ _ zero_le_one, le_Clamp _ _ _ zero_le_one,
   le_Clamp _ _ _ zero_le_one⟩

theorem Interp_self (a v : ℝ) : Interp a a v = a := by unfold Interp; ring

theorem InterpWrap_same (a v : ℝ) (h0 : 0 ≤ a) (h1 : a < 360) :
    InterpWrap 360 a a v = a := by
  unfold InterpWrap interpWrapDelta interpWrapNorm
  rw [sub_self]
  rw [if_neg (by norm_num : ¬ (0 : ℝ) > 360 / 2),
    if_neg (by norm_num : ¬ (0 : ℝ) < -(360 / 2)), mul_zero, add_zero]
  rw [if_neg (by linarith : ¬ a ≥ 360), if_neg (by linarith : ¬ a < 0)]

theorem cube_le_cube {a b : ℝ} (h : a ≤ b) : a * a * a ≤ b * b * b := by
  nlinarith [sq_nonneg (a + b), sq_nonneg (a - b), sq_nonneg a, sq_nonneg b]

theorem cube_lt_cube {a b : ℝ} (h : a < b) : a * a * a < b * b * b := by
  have hd : 0 < b - a := sub_pos.mpr h
  nlinarith [mul_pos (mul_pos hd hd) hd, mul_nonneg hd.le (sq_nonneg (a + b))]

theorem le_of_cube_le {a b : ℝ} (h : a * a * a ≤ b * b * b) : a ≤ b := by
  by_contra hc
  push_neg at hc
  exact absurd h (not_le.mpr (cube_lt_cube hc))

theorem Cbrt_cube (x : ℝ) : Cbrt x * Cbrt x * Cbrt x = x := by
  have key : ∀ y : ℝ, 0 ≤ y → y ^ ((3 : ℝ)⁻¹) * y ^ ((3 : ℝ)⁻¹) * y ^ ((3 : ℝ)⁻¹) = y := by
    intro y hy
    have h3 : y ^ ((3 : ℝ)⁻¹) * y ^ ((3 : ℝ)⁻¹) * y ^ ((3 : ℝ)⁻¹)
        = (y ^ ((3 : ℝ)⁻¹)) ^ (3 : ℕ) := by ring
    rw [h3, ← Real.rpow_natCast (y ^ ((3 : ℝ)⁻¹)) 3, ← Real.rpow_mul hy]
    norm_num
  unfold Cbrt
  split_ifs with h
  · have := key (-x) (by linarith)
    nlinarith [this]
  · exact key x (by linarith)

theorem Cbrt_bounds {a b x : ℝ} (h1 : a * a * a ≤ x) (h2 : x ≤ b * b * b) :
    a ≤ Cbrt x ∧ Cbrt x ≤ b := by
  constructor
  · exact le_of_cube_le (by rw [Cbrt_cube]; exact h1)
  · exact le_of_cube_le (by rw [Cbrt_cube]; exact h2)

theorem deltaE_ge_abs_A (x y : OKLAB) : |x.A - y.A| ≤ DeltaE x y := by
  unfold DeltaE Sub Dot OKLAB.vec
  dsimp only
  rw [← Real.sqrt_mul_self_eq_abs]
  apply Real.sqrt_le_sqrt
  nlinarith [sq_nonneg (x.L - y.L), sq_nonneg (x.B - y.B)]

theorem deltaE_ge_abs_L (x y : OKLAB) : |x.L - y.L| ≤ DeltaE x y := by
  unfold DeltaE Sub Dot OKLAB.vec
  dsimp only
  rw [← Real.sqrt_mul_self_eq_abs]
  apply Real.sqrt_le_sqrt
  nlinarith [sq_nonneg (x.A - y.A), sq_nonneg (x.B - y.B)]

/-- In exact real arithmetic, converting OKLab to OKLCH and back is the
identity whenever the chroma is above the achromatic sentinel threshold. -/
theorem OKLCH_OKLAB_of_chromatic (x : OKLAB)
    (h : ¬ Real.sqrt (x.A * x.A + x.B * x.B) ≤ 0.000004) :
    (x.OKLCH).OKLAB = x := by
  obtain ⟨L, A, B⟩ := x
  simp only at h
  have habs : Real.sqrt (A * A + B * B) = Complex.abs ⟨A, B⟩ := by
    rw [Complex.abs_apply, Complex.normSq_mk]
  have hzpos : 0 < Complex.abs (⟨A, B⟩ : ℂ) := by
    rw [← habs]; exact lt_of_lt_of_le (by norm_num) (not_le.mp h).le
  have hzne : (⟨A, B⟩ : ℂ) ≠ 0 := Complex.abs.ne_zero_iff.mp (ne_of_gt hzpos)
  have hre : (⟨A, B⟩ : ℂ).re = A := rfl
  have him : (⟨A, B⟩ : ℂ).im = B := rfl
  have hcs : Real.cos (Complex.arg ⟨A, B⟩) = A / Complex.abs ⟨A, B⟩ := by
    rw [Complex.cos_arg hzne, hre]
  have hsn : Real.sin (Complex.arg ⟨A, B⟩) = B / Complex.abs ⟨A, B⟩ := by
    rw [Complex.sin_arg, him]
  have hπ : Real.pi ≠ 0 := Real.pi_ne_zero
  have hne : Complex.abs (⟨A, B⟩ : ℂ) ≠ 0 := ne_of_gt hzpos
  have e1 : Complex.abs (⟨A, B⟩ : ℂ) * (A / Complex.abs ⟨A, B⟩) = A := by
    field_simp
  have e2 : Complex.abs (⟨A, B⟩ : ℂ) * (B / Complex.abs ⟨A, B⟩) = B := by
    field_simp
  unfold OKLAB.OKLCH OKLCH.OKLAB hueDeg Atan2
  simp only [if_neg h]
  split_ifs with hneg
  · have harg : (Complex.arg ⟨A, B⟩ * 180 / Real.pi + 360) * Real.pi / 180
        = Complex.arg ⟨A, B⟩ + 2 * Real.pi := by
      field_simp
      ring
    rw [harg, Real.cos_add_two_pi, Real.sin_add_two_pi, hcs, hsn, habs, e1, e2]
  · have harg : Complex.arg ⟨A, B⟩ * 180 / Real.pi * Real.pi / 180
        = Complex.arg ⟨A, B⟩ := by
      field_simp
    rw [harg, hcs, hsn, habs, e1, e2]

/-- The OKLCH round trip moves a color by strictly less than the JND in
OKLab: it is the identity for chromatic colors and collapses only a
sub-4e-6 chroma for achromatic ones. -/
theorem roundtrip_deltaE_lt_JND (y : OKLAB) :
    DeltaE ((y.OKLCH).OKLAB) y < JND := by
  by_cases h : Real.sqrt (y.A * y.A + y.B * y.B) ≤ 0.000004
  · obtain ⟨L, A, B⟩ := y
    simp only at h
    have hchn : 0 ≤ Real.sqrt (A * A + B * B) := Real.sqrt_nonneg _
    have habsA : |A| ≤ Real.sqrt (A * A + B * B) := by
      rw [← Real.sqrt_mul_self_eq_abs]
      exact Real.sqrt_le_sqrt (by nlinarith [sq_nonneg B])
    have habsB : |B| ≤ Real.sqrt (A * A + B * B) := by
      rw [← Real.sqrt_mul_self_eq_abs]
      exact Real.sqrt_le_sqrt (by nlinarith [sq_nonneg A])
    have hA1 : -0.000004 ≤ A := by
      have := neg_abs_le A; linarith [habsA.trans h]
    have hA2 : A ≤ 0.000004 := by
      have := le_abs_self A; linarith [habsA.trans h]
    have hB1 : -0.000004 ≤ B := by
      have := neg_abs_le B; linarith [habsB.trans h]
    have hB2 : B ≤ 0.000004 := by
      have := le_abs_self B; linarith [habsB.trans h]
    have hAu : A ≤ Real.sqrt (A * A + B * B) := (le_abs_self A).trans habsA
    have hAl : -Real.sqrt (A * A + B * B) ≤ A := by
      have := neg_abs_le A; linarith
    unfold OKLAB.OKLCH OKLCH.OKLAB DeltaE Sub Dot OKLAB.vec undefinedHue JND
    simp only [if_pos h]
    have h0 : (0.0 : ℝ) * Real.pi / 180 = 0 := by norm_num
    rw [h0, Real.cos_zero, Real.sin_zero]
    refine (Real.sqrt_lt' (by norm_num)).mpr ?_
    nlinarith [hchn, h, hAu, hAl, hB1, hB2]
  · rw [OKLCH_OKLAB_of_chromatic y h]
    unfold DeltaE Sub Dot OKLAB.vec JND
    have hz : (y.L - y.L) * (y.L - y.L) + (y.A - y.A) * (y.A - y.A)
        + (y.B - y.B) * (y.B - y.B) = 0 := by ring
    rw [hz, Real.sqrt_zero]
    norm_num

/-- Every `continue` of the loop body exactly halves the search interval. -/
theorem gmStepBody_inr_halves (s t : GMState) (h : gmStepBody s = Sum.inr t) :
    t.cmax - t.cmin = (s.cmax - s.cmin) / 2 := by
  unfold gmStepBody at h
  split_ifs at h <;> first
    | (injection h with h2
       subst h2
       unfold gmChroma
       ring)
    | simp at h

/-- Every early `return` of the loop body returns the OKLCH round trip of
the just-clipped candidate. -/
theorem gmStepBody_inl (s : GMState) (r : OKLCH) (h : gmStepBody s = Sum.inl r) :
    r = (((gmClipped s).CIEXYZ).OKLAB).OKLCH := by
  unfold gmStepBody at h
  split_ifs at h <;> first
    | (injection h with h2
       exact h2.symm)
    | simp at h

/-- The loop body preserves the invariant that `clipped` is in gamut. -/
theorem gmStepBody_inr_clipped (s t : GMState) (h : gmStepBody s = Sum.inr t)
    (hg : s.clipped.InGamut) : t.clipped.InGamut := by
  unfold gmStepBody at h
  split_ifs at h <;> first
    | (injection h with h2
       subst h2
       exact hg)
    | (injection h with h2
       subst h2
       exact ClipToGamut_InGamut _)
    | simp at h

/-- The loop terminates: `n+1` iterations of fuel suffice whenever the
search interval is at most `gmEps·2^n` wide, i.e. within a logarithmic
number of halvings. -/
theorem gmLoop_isSome (n : ℕ) : ∀ s : GMState,
    s.cmax - s.cmin ≤ gmEps * 2 ^ n → ((gmLoop (n + 1) s).isSome = true) := by
  induction n with
  | zero =>
    intro s hs
    rw [gmLoop, if_pos (by simpa using hs)]
    rfl
  | succ n ih =>
    intro s hs
    rw [gmLoop]
    by_cases hw : s.cmax - s.cmin ≤ gmEps
    · rw [if_pos hw]; rfl
    · rw [if_neg hw]
      cases hstep : gmStepBody s with
      | inl r => rfl
      | inr t =>
        apply ih
        have hhalf := gmStepBody_inr_halves s t hstep
        have hpow : gmEps * 2 ^ (n + 1) = gmEps * 2 ^ n * 2 := by ring
        rw [hpow] at hs
        linarith

/-- Whatever the loop returns is the OKLCH form of the OKLab image of an
in-gamut clipped linear-RGB color. -/
theorem gmLoop_shape (n : ℕ) : ∀ (s : GMState) (r : OKLCH),
    s.clipped.InGamut → gmLoop n s = some r →
    ∃ lin : LSRGB, lin.InGamut ∧ r = (((lin.CIEXYZ).OKLAB)).OKLCH := by
  induction n with
  | zero =>
    intro s r _ h
    rw [gmLoop] at h
    exact absurd h (by simp)
  | succ n ih =>
    intro s r hg h
    rw [gmLoop] at h
    by_cases hw : s.cmax - s.cmin ≤ gmEps
    · rw [if_pos hw] at h
      injection h with h'
      exact ⟨s.clipped, hg, h'.symm⟩
    · rw [if_neg hw] at h
      cases hstep : gmStepBody s with
      | inl r2 =>
        rw [hstep] at h
        injection h with h'
        subst h'
        exact ⟨gmClipped s, ClipToGamut_InGamut _, gmStepBody_inl s r2 hstep⟩
      | inr t =>
        rw [hstep] at h
        exact ih t r (gmStepBody_inr_clipped s t hstep hg) h

/-- For any input with lightness in `[0,1]`, the mapper's result is the
OKLCH form of the OKLab image of an in-gamut clipped linear-RGB color. -/
theorem gamutMapped_shape (c : OKLCH) (h0 : 0 ≤ c.L) (h1 : c.L ≤ 1) :
    ∃ lin : LSRGB, lin.InGamut ∧
      c.GamutMappedLSRGB = (((lin.CIEXYZ).OKLAB)).OKLCH := by
  unfold OKLCH.GamutMappedLSRGB
  rw [if_neg (by push_neg; exact ⟨h0, h1⟩)]
  by_cases hE : gmE c < JND
  · rw [if_pos hE]
    exact ⟨gmClip c, ClipToGamut_InGamut _, rfl⟩
  · rw [if_neg hE]
    cases hloop : gmLoop (gmFuel c) (gmInit c) with
    | none =>
      exact ⟨gmClip c, ClipToGamut_InGamut _, rfl⟩
    | some r =>
      obtain ⟨lin, hgam, hr⟩ :=
        gmLoop_shape (gmFuel c) (gmInit c) r (ClipToGamut_InGamut _) hloop
      exact ⟨lin, hgam, by simp only [Option.getD_some]; exact hr⟩

/-! ### Branch-evaluation helpers for the interpolation functions -/

theorem lerp_both_achromatic (f t : CIELCH) (v : ℝ)
    (hf : f.C < 0.000004) (ht : t.C < 0.000004) :
    CIELCH.Lerp f t v = ⟨Interp f.L t.L v, 0, 0⟩ := by
  unfold CIELCH.Lerp
  rw [if_pos hf, if_pos ht]
  norm_num [undefinedHue]

theorem lerp_from_achromatic (f t : CIELCH) (v : ℝ)
    (hf : f.C < 0.000004) (ht : ¬ t.C < 0.000004) :
    CIELCH.Lerp f t v
      = ⟨Interp f.L t.L v, Interp f.C t.C v, InterpWrap 360 t.H t.H v⟩ := by
  unfold CIELCH.Lerp
  rw [if_pos hf, if_neg ht]

theorem lerp_to_achromatic (f t : CIELCH) (v : ℝ)
    (hf : ¬ f.C < 0.000004) (ht : t.C < 0.000004) :
    CIELCH.Lerp f t v
      = ⟨Interp f.L t.L v, Interp f.C t.C v, InterpWrap 360 f.H f.H v⟩ := by
  unfold CIELCH.Lerp
  rw [if_neg hf, if_pos ht]

theorem lerp_chromatic (f t : CIELCH) (v : ℝ)
    (hf : ¬ f.C < 0.000004) (ht : ¬ t.C < 0.000004) :
    CIELCH.Lerp f t v
      = ⟨Interp f.L t.L v, Interp f.C t.C v, InterpWrap 360 f.H t.H v⟩ := by
  unfold CIELCH.Lerp
  rw [if_neg hf, if_neg ht]

theorem v2_lerp_chromatic (f t : CIELCH) (v : ℝ)
    (hf : ¬ f.C < 0.000004) (ht : ¬ t.C < 0.000004) :
    V2.CIELCH.Lerp f t v = V2.lerpChromatic f t v := by
  unfold V2.CIELCH.Lerp
  rw [if_neg hf, if_neg ht]

theorem oklch_lerp_H (f t : OKLCH) (v : ℝ) :
    (OKLCH.Lerp f t v).H = (CIELCH.Lerp ⟨f.L, f.C, f.H⟩ ⟨t.L, t.C, t.H⟩ v).H :=
  rfl

theorem v2_oklch_lerp_H (f t : OKLCH) (v : ℝ) :
    (V2.OKLCH.Lerp f t v).H
      = (V2.CIELCH.Lerp ⟨f.L, f.C, f.H⟩ ⟨t.L, t.C, t.H⟩ v).H :=
  rfl

theorem interpWrapDelta_bounds (a b : ℝ) (ha0 : 0 ≤ a) (ha1 : a < 360)
    (hb0 : 0 ≤ b) (hb1 : b < 360) :
    -180 ≤ interpWrapDelta 360 a b ∧ interpWrapDelta 360 a b ≤ 180 := by
  unfold interpWrapDelta
  split_ifs <;> constructor <;> linarith

theorem hueDelta_bounds (a b : ℝ) (ha0 : 0 ≤ a) (ha1 : a < 360)
    (hb0 : 0 ≤ b) (hb1 : b < 360) :
    -180 ≤ V2.hueDelta a b ∧ V2.hueDelta a b ≤ 180 := by
  unfold V2.hueDelta
  split_ifs <;> constructor <;> linarith

theorem mul_bounds_of_unit (v d M : ℝ) (hv0 : 0 ≤ v) (hv1 : v ≤ 1)
    (hd1 : -M ≤ d) (hd2 : d ≤ M) : -M ≤ v * d ∧ v * d ≤ M := by
  constructor <;> nlinarith

theorem interpWrapNorm_range (r : ℝ) (h1 : -360 ≤ r) (h2 : r < 720) :
    0 ≤ interpWrapNorm 360 r ∧ interpWrapNorm 360 r < 360 := by
  unfold interpWrapNorm
  split_ifs <;> constructor <;> linarith

theorem hueNorm_range (r : ℝ) (h1 : -360 ≤ r) (h2 : r ≤ 720) :
    0 ≤ V2.hueNorm r ∧ V2.hueNorm r ≤ 360 := by
  unfold V2.hueNorm
  split_ifs <;> constructor <;> linarith

theorem oklch_lerp_C (f t : OKLCH) (v : ℝ) :
    (OKLCH.Lerp f t v).C = (CIELCH.Lerp ⟨f.L, f.C, f.H⟩ ⟨t.L, t.C, t.H⟩ v).C :=
  rfl

theorem cielch_lerp_self (c : CIELCH) (v : ℝ)
    (h : (0.000004 ≤ c.C ∧ 0 ≤ c.H ∧ c.H < 360) ∨ (c.C = 0 ∧ c.H = 0)) :
    CIELCH.Lerp c c v = c := by
  obtain ⟨L, C, H⟩ := c
  rcases h with ⟨h1, h2, h3⟩ | ⟨h1, h2⟩
  · simp only at h1 h2 h3
    rw [lerp_chromatic _ _ _ (not_lt.mpr h1) (not_lt.mpr h1)]
    rw [show Interp L L v = L from Interp_self L v,
      show Interp C C v = C from Interp_self C v]
    rw [show InterpWrap 360 H H v = H from InterpWrap_same H v h2 h3]
  · simp only at h1 h2
    subst h1
    subst h2
    rw [lerp_both_achromatic _ _ _ (by norm_num) (by norm_num)]
    rw [show Interp L L v = L from Interp_self L v]

theorem oklch_lerp_self (k : OKLCH) (v : ℝ)
    (h : (0.000004 ≤ k.C ∧ 0 ≤ k.H ∧ k.H < 360) ∨ (k.C = 0 ∧ k.H = 0)) :
    OKLCH.Lerp k k v = k := by
  obtain ⟨L, C, H⟩ := k
  show OKLCH.mk (CIELCH.Lerp ⟨L, C, H⟩ ⟨L, C, H⟩ v).L
      (CIELCH.Lerp ⟨L, C, H⟩ ⟨L, C, H⟩ v).C
      (CIELCH.Lerp ⟨L, C, H⟩ ⟨L, C, H⟩ v).H = ⟨L, C, H⟩
  rw [cielch_lerp_self ⟨L, C, H⟩ v (by simpa using h)]

theorem hsv_srgb_ingamut (c : HSV) : (c.SRGB).InGamut := by
  unfold HSV.SRGB
  split_ifs with hs
  · exact ⟨Clamp_le _ _ _, Clamp_le _ _ _, Clamp_le _ _ _,
      le_Clamp _ _ _ zero_le_one, le_Clamp _ _ _ zero_le_one,
      le_Clamp _ _ _ zero_le_one⟩
  · exact srgb_ClipToGamut_InGamut _

theorem wrapHueUp_nonneg (h : ℝ) : 0 ≤ wrapHueUp h := by
  induction h using wrapHueUp.induct with
  | case1 h hneg ih =>
    rw [wrapHueUp, dif_pos hneg]
    exact ih
  | case2 h hpos =>
    rw [wrapHueUp, dif_neg hpos]
    linarith [not_lt.mp hpos]

theorem wrapHueDown_lt (h : ℝ) : wrapHueDown h < 360 := by
  induction h using wrapHueDown.induct with
  | case1 h hge ih =>
    rw [wrapHueDown, dif_pos hge]
    exact ih
  | case2 h hlt =>
    rw [wrapHueDown, dif_neg hlt]
    linarith [not_le.mp hlt]

theorem wrapHueDown_nonneg (h : ℝ) (hh : 0 ≤ h) : 0 ≤ wrapHueDown h := by
  revert hh
  induction h using wrapHueDown.induct with
  | case1 h hge ih =>
    intro hh
    rw [wrapHueDown, dif_pos hge]
    exact ih (by linarith [hge])
  | case2 h hlt =>
    intro hh
    rw [wrapHueDown, dif_neg hlt]
    exact hh

/-! ### Claim theorems -/

/-- C10: `wrapHue` returns a value in `[0, 360)` for every (idealized real)
hue, and consequently `HSV.SRGB` is a total function whose result is a
well-formed (in-gamut) sRGB color on every input. -/
theorem c10_wrapHue_range : ∀ (h : ℝ) (c : HSV),
    (0 ≤ wrapHue h ∧ wrapHue h < 360) ∧ (c.SRGB).InGamut := by
  intro h c
  refine ⟨⟨?_, ?_⟩, hsv_srgb_ingamut c⟩
  · exact wrapHueDown_nonneg _ (wrapHueUp_nonneg h)
  · exact wrapHueDown_lt _

/-- C8 (amended): the cylindrical-to-Cartesian inverse transforms follow
`A = C·cos(H°)`, `B = C·sin(H°)` in `OKLCH.OKLAB` and in the first
revision's `CIELCH.CIELAB`; the second revision's `CIELCH.CIELAB` swaps the
assignment (`A = C·sin(H°)`, `B = C·cos(H°)`). -/
theorem c8_polar_inverse : ∀ (o : OKLCH) (c : CIELCH),
    (o.OKLAB).A = o.C * Real.cos (o.H * Real.pi / 180)
    ∧ (o.OKLAB).B = o.C * Real.sin (o.H * Real.pi / 180)
    ∧ (c.CIELAB).A = c.C * Real.cos (c.H * Real.pi / 180)
    ∧ (c.CIELAB).B = c.C * Real.sin (c.H * Real.pi / 180)
    ∧ (V2.CIELCH.CIELAB c).A = c.C * Real.sin (c.H * Real.pi / 180)
    ∧ (V2.CIELCH.CIELAB c).B = c.C * Real.cos (c.H * Real.pi / 180) :=
  fun _ _ => ⟨rfl, rfl, rfl, rfl, rfl, rfl⟩

/-- C8 counterexample: at `CIELCH{L:0, C:1, H:90}` the second revision's
`CIELCH.CIELAB` returns `A = C·sin(90°) = 1`, not `C·cos(90°) = 0` as the
claim states for every `CIELCH` value. -/
theorem c8_counterexample :
    (V2.CIELCH.CIELAB ⟨0, 1, 90⟩).A ≠ 1 * Real.cos ((90 : ℝ) * Real.pi / 180) := by
  have h1 : ((90 : ℝ) * Real.pi / 180) = Real.pi / 2 := by ring
  show (1 : ℝ) * Real.sin ((90 : ℝ) * Real.pi / 180)
      ≠ 1 * Real.cos ((90 : ℝ) * Real.pi / 180)
  rw [h1, Real.sin_pi_div_two, Real.cos_pi_div_two]
  norm_num

/-- C4 (amended): hue interpolates along the shorter arc (raw delta
corrected by ±360 beyond ±180) in both revisions.  The first revision's
wraparound interpolation re-normalizes into `[0,360)` and yields hue `0`
for 350°→10° at `v = 1/2`; the second revision's final correction maps only
`H > 360` and `H < 0` back, so its result lies in `[0,360]` and that
interpolation yields hue `360` (≡ 0 mod 360) — never 180 in either case. -/
theorem c4_hue_shortest_path :
    (∀ L L2 C C2 : ℝ, 0.000004 ≤ C → 0.000004 ≤ C2 →
      (OKLCH.Lerp ⟨L, C, 350⟩ ⟨L2, C2, 10⟩ (1 / 2)).H = 0
      ∧ (V2.OKLCH.Lerp ⟨L, C, 350⟩ ⟨L2, C2, 10⟩ (1 / 2)).H = 360)
    ∧ (∀ (f t : CIELCH) (v : ℝ), ¬ f.C < 0.000004 → ¬ t.C < 0.000004 →
      0 ≤ f.H → f.H < 360 → 0 ≤ t.H → t.H < 360 → 0 ≤ v → v ≤ 1 →
      (0 ≤ (CIELCH.Lerp f t v).H ∧ (CIELCH.Lerp f t v).H < 360)
      ∧ (0 ≤ (V2.CIELCH.Lerp f t v).H ∧ (V2.CIELCH.Lerp f t v).H ≤ 360)) := by
  constructor
  · intro L L2 C C2 hC hC2
    constructor
    · rw [oklch_lerp_H,
        lerp_chromatic _ _ _ (not_lt.mpr hC) (not_lt.mpr hC2)]
      show InterpWrap 360 350 10 (1 / 2) = 0
      unfold InterpWrap interpWrapDelta interpWrapNorm
      norm_num
    · rw [v2_oklch_lerp_H,
        v2_lerp_chromatic _ _ _ (not_lt.mpr hC) (not_lt.mpr hC2)]
      show V2.hueNorm ((350 : ℝ) + (1 / 2) * V2.hueDelta 350 10) = 360
      unfold V2.hueDelta V2.hueNorm
      norm_num
  · intro f t v hf ht hf0 hf1 ht0 ht1 hv0 hv1
    have hd := interpWrapDelta_bounds f.H t.H hf0 hf1 ht0 ht1
    have hm := mul_bounds_of_unit v (interpWrapDelta 360 f.H t.H) 180
      hv0 hv1 hd.1 hd.2
    have hd2 := hueDelta_bounds f.H t.H hf0 hf1 ht0 ht1
    have hm2 := mul_bounds_of_unit v (V2.hueDelta f.H t.H) 180
      hv0 hv1 hd2.1 hd2.2
    constructor
    · rw [lerp_chromatic _ _ _ hf ht]
      show 0 ≤ InterpWrap 360 f.H t.H v ∧ InterpWrap 360 f.H t.H v < 360
      unfold InterpWrap
      exact interpWrapNorm_range _ (by linarith) (by linarith)
    · rw [v2_lerp_chromatic _ _ _ hf ht]
      show 0 ≤ V2.hueNorm (f.H + v * V2.hueDelta f.H t.H)
          ∧ V2.hueNorm (f.H + v * V2.hueDelta f.H t.H) ≤ 360
      exact hueNorm_range _ (by linarith) (by linarith)

/-- C4 witness: the amended theorem applied to the spec's own example with
chroma 1 at both endpoints. -/
theorem c4_witness :
    (OKLCH.Lerp ⟨0.5, 1, 350⟩ ⟨0.5, 1, 10⟩ (1 / 2)).H = 0
    ∧ (V2.OKLCH.Lerp ⟨0.5, 1, 350⟩ ⟨0.5, 1, 10⟩ (1 / 2)).H = 360 :=
  c4_hue_shortest_path.1 0.5 0.5 1 1 (by norm_num) (by norm_num)

/-- C4 counterexample: for the second revision's `OKLCH.Lerp`, interpolating
hue 350° to 10° at `v = 1/2` yields hue 360, which is neither 0 nor inside
`[0, 360)`, refuting the claim's "re-normalized into [0,360)" and "yields
hue 0". -/
theorem c4_counterexample :
    (V2.OKLCH.Lerp ⟨1 / 2, 1, 350⟩ ⟨1 / 2, 1, 10⟩ (1 / 2)).H ≠ 0
    ∧ ¬ (V2.OKLCH.Lerp ⟨1 / 2, 1, 350⟩ ⟨1 / 2, 1, 10⟩ (1 / 2)).H < 360 := by
  have h : (V2.OKLCH.Lerp ⟨1 / 2, 1, 350⟩ ⟨1 / 2, 1, 10⟩ (1 / 2)).H = 360 := by
    rw [v2_oklch_lerp_H,
      v2_lerp_chromatic _ _ _ (by norm_num) (by norm_num)]
    show V2.hueNorm ((350 : ℝ) + (1 / 2) * V2.hueDelta 350 10) = 360
    unfold V2.hueDelta V2.hueNorm
    norm_num
  rw [h]
  norm_num

/-- C5: the achromatic rule of the cylindrical `Lerp`.  If exactly one
endpoint is achromatic (chroma below 4e-6) the result adopts the other
endpoint's hue for every `v`; if both are achromatic the result has chroma
exactly 0 and the sentinel hue 0, with no hue blending. -/
theorem c5_achromatic_rule :
    ∀ (f t : CIELCH) (a b : OKLCH) (v : ℝ),
      (f.C < 0.000004 → ¬ t.C < 0.000004 → 0 ≤ t.H → t.H < 360 →
        (CIELCH.Lerp f t v).H = t.H)
      ∧ (¬ f.C < 0.000004 → t.C < 0.000004 → 0 ≤ f.H → f.H < 360 →
        (CIELCH.Lerp f t v).H = f.H)
      ∧ (f.C < 0.000004 → t.C < 0.000004 →
        (CIELCH.Lerp f t v).C = 0 ∧ (CIELCH.Lerp f t v).H = 0)
      ∧ (a.C < 0.000004 → ¬ b.C < 0.000004 → 0 ≤ b.H → b.H < 360 →
        (OKLCH.Lerp a b v).H = b.H)
      ∧ (a.C < 0.000004 → b.C < 0.000004 →
        (OKLCH.Lerp a b v).C = 0 ∧ (OKLCH.Lerp a b v).H = 0) := by
  intro f t a b v
  refine ⟨?_, ?_, ?_, ?_, ?_⟩
  · intro hf ht h0 h1
    rw [lerp_from_achromatic _ _ _ hf ht]
    exact InterpWrap_same t.H v h0 h1
  · intro hf ht h0 h1
    rw [lerp_to_achromatic _ _ _ hf ht]
    exact InterpWrap_same f.H v h0 h1
  · intro hf ht
    rw [lerp_both_achromatic _ _ _ hf ht]
    exact ⟨rfl, rfl⟩
  · intro hf ht h0 h1
    rw [oklch_lerp_H, lerp_from_achromatic _ _ _ hf ht]
    exact InterpWrap_same b.H v h0 h1
  · intro hf ht
    rw [oklch_lerp_C, oklch_lerp_H, lerp_both_achromatic _ _ _ hf ht]
    exact ⟨rfl, rfl⟩

/-- C5 witness: a gray interpolated toward a saturated color at `v = 1/2`
inherits the saturated hue 90°, and two grays yield chroma exactly 0. -/
theorem c5_witness :
    (CIELCH.Lerp ⟨0, 0, 0⟩ ⟨1, 1, 90⟩ (1 / 2)).H = 90
    ∧ (OKLCH.Lerp ⟨0, 0, 0⟩ ⟨1, 0, 0⟩ (1 / 2)).C = 0 := by
  constructor
  · exact (c5_achromatic_rule ⟨0, 0, 0⟩ ⟨1, 1, 90⟩ ⟨0, 0, 0⟩ ⟨0, 0, 0⟩ (1 / 2)).1
      (by norm_num) (by norm_num) (by norm_num) (by norm_num)
  · exact ((c5_achromatic_rule ⟨0, 0, 0⟩ ⟨0, 0, 0⟩ ⟨0, 0, 0⟩ ⟨1, 0, 0⟩ (1 / 2)).2.2.2.2
      (by norm_num) (by norm_num)).1

/-- C7 (amended): `Lerp(c, c, v) = c` holds exactly for every Cartesian
space and every `v`; for the cylindrical spaces it holds provided the color
is chromatic (chroma ≥ 4e-6, hue in `[0,360)`) or canonically achromatic
(chroma = 0 and sentinel hue 0).  A cylindrical value with `0 < C < 4e-6`
is instead collapsed to `⟨L, 0, 0⟩` (see the counterexample). -/
theorem c7_lerp_identity :
    ∀ (a : SRGB) (b : LSRGB) (x : CIEXYZ) (l : CIELAB) (o : OKLAB)
      (k : OKLCH) (c : CIELCH) (v : ℝ),
      SRGB.Lerp a a v = a ∧ LSRGB.Lerp b b v = b ∧ CIEXYZ.Lerp x x v = x
      ∧ CIELAB.Lerp l l v = l ∧ OKLAB.Lerp o o v = o
      ∧ ((0.000004 ≤ k.C ∧ 0 ≤ k.H ∧ k.H < 360) ∨ (k.C = 0 ∧ k.H = 0) →
          OKLCH.Lerp k k v = k)
      ∧ ((0.000004 ≤ c.C ∧ 0 ≤ c.H ∧ c.H < 360) ∨ (c.C = 0 ∧ c.H = 0) →
          CIELCH.Lerp c c v = c) := by
  intro a b x l o k c v
  refine ⟨?_, ?_, ?_, ?_, ?_, oklch_lerp_self k v, cielch_lerp_self c v⟩
  · unfold SRGB.Lerp
    rw [Interp_self, Interp_self, Interp_self]
  · unfold LSRGB.Lerp
    rw [Interp_self, Interp_self, Interp_self]
  · unfold CIEXYZ.Lerp
    rw [Interp_self, Interp_self, Interp_self]
  · unfold CIELAB.Lerp
    rw [Interp_self, Interp_self, Interp_self]
  · unfold OKLAB.Lerp
    rw [Interp_self, Interp_self, Interp_self]

/-- C7 witness: the identity at concrete colors, including a chromatic
OKLCH value, via the amended theorem. -/
theorem c7_witness :
    OKLCH.Lerp ⟨0.5, 1, 90⟩ ⟨0.5, 1, 90⟩ (3 : ℝ) = ⟨0.5, 1, 90⟩
    ∧ SRGB.Lerp ⟨0.1, 0.2, 0.3⟩ ⟨0.1, 0.2, 0.3⟩ (7 : ℝ) = ⟨0.1, 0.2, 0.3⟩ := by
  have h := c7_lerp_identity ⟨0.1, 0.2, 0.3⟩ ⟨0, 0, 0⟩ ⟨0, 0, 0⟩ ⟨0, 0, 0⟩
    ⟨0, 0, 0⟩ ⟨0.5, 1, 90⟩ ⟨0, 0, 0⟩ (3 : ℝ)
  have h2 := c7_lerp_identity ⟨0.1, 0.2, 0.3⟩ ⟨0, 0, 0⟩ ⟨0, 0, 0⟩ ⟨0, 0, 0⟩
    ⟨0, 0, 0⟩ ⟨0.5, 1, 90⟩ ⟨0, 0, 0⟩ (7 : ℝ)
  exact ⟨h.2.2.2.2.2.1 (Or.inl ⟨by norm_num, by norm_num, by norm_num⟩), h2.1⟩

/-- C7 counterexample: for the OKLCH value `⟨1/2, 2e-6, 90⟩`, whose chroma
is nonzero but below the 4e-6 epsilon, `Lerp(c, c, 1/2)` collapses chroma
to 0 and hue to the sentinel, so it does not return `c`. -/
theorem c7_counterexample :
    OKLCH.Lerp ⟨1 / 2, 0.000002, 90⟩ ⟨1 / 2, 0.000002, 90⟩ (1 / 2)
      ≠ ⟨1 / 2, 0.000002, 90⟩ := by
  intro heq
  have hC : (OKLCH.Lerp ⟨1 / 2, 0.000002, 90⟩ ⟨1 / 2, 0.000002, 90⟩ (1 / 2)).C
      = 0.000002 := by rw [heq]
  rw [oklch_lerp_C, lerp_both_achromatic _ _ _ (by norm_num) (by norm_num)] at hC
  norm_num at hC

/-- C9 (amended): the `LerpLSRGB`, `LerpCIEXYZ`, `LerpOKLAB` and `LerpOKLCH`
pipelines clip their result to the `[0,1]` gamut (in linear RGB) before
re-encoding, and all five pipelines report the full-opacity alpha `0xffff`
from the interchange color's `RGBA` accessor; `LerpSRGB` performs no
clipping (see the counterexample). -/
theorem c9_pipelines_alpha_clip : ∀ (c1 c2 : GoColor) (v : ℝ),
    (LerpSRGB c1 c2 v).RGBA.2.2.2 = 0xffff
    ∧ (LerpLSRGB c1 c2 v).RGBA.2.2.2 = 0xffff
    ∧ (LerpCIEXYZ c1 c2 v).RGBA.2.2.2 = 0xffff
    ∧ (LerpOKLAB c1 c2 v).RGBA.2.2.2 = 0xffff
    ∧ (LerpOKLCH c1 c2 v).RGBA.2.2.2 = 0xffff
    ∧ (∃ l : LSRGB, l.InGamut ∧ LerpLSRGB c1 c2 v = l.SRGB)
    ∧ (∃ l : LSRGB, l.InGamut ∧ LerpCIEXYZ c1 c2 v = l.SRGB)
    ∧ (∃ l : LSRGB, l.InGamut ∧ LerpOKLAB c1 c2 v = l.SRGB)
    ∧ (∃ l : LSRGB, l.InGamut ∧ LerpOKLCH c1 c2 v = l.SRGB) := by
  intro c1 c2 v
  exact ⟨rfl, rfl, rfl, rfl, rfl,
    ⟨_, ClipToGamut_InGamut _, rfl⟩, ⟨_, ClipToGamut_InGamut _, rfl⟩,
    ⟨_, ClipToGamut_InGamut _, rfl⟩, ⟨_, ClipToGamut_InGamut _, rfl⟩⟩

/-- C9 counterexample: `LerpSRGB` does not clip: extrapolating black toward
white at `v = 2` yields channel value 2, outside `[0,1]`. -/
theorem c9_counterexample :
    ¬ (LerpSRGB ⟨0, 0, 0, 0xffff⟩ ⟨0xffff, 0xffff, 0xffff, 0xffff⟩ 2).InGamut := by
  have hR : (LerpSRGB ⟨0, 0, 0, 0xffff⟩ ⟨0xffff, 0xffff, 0xffff, 0xffff⟩ 2).R
      = 2 := by
    show Interp (((0 : ℕ) : ℝ) / 0xffff) (((0xffff : ℕ) : ℝ) / 0xffff) 2 = 2
    unfold Interp
    norm_num
  intro hg
  unfold SRGB.InGamut at hg
  rw [hR] at hg
  norm_num at hg

/-- C2: the gamut mapper's binary search over chroma halves the search
interval `[cmin, cmax]` exactly on every iteration that does not return,
exits once `cmax − cmin ≤ 1e-4`, and therefore terminates within
`n+1` iterations whenever the interval is at most `1e-4·2^n` wide — i.e.
within roughly `log2(original chroma / 1e-4)` iterations; in particular the
fuel `gmFuel` used by `GamutMappedLSRGB` always suffices. -/
theorem c2_binary_search_terminates :
    (∀ s t : GMState, gmStepBody s = Sum.inr t →
      t.cmax - t.cmin = (s.cmax - s.cmin) / 2)
    ∧ (∀ (n : ℕ) (s : GMState), s.cmax - s.cmin ≤ gmEps * 2 ^ n →
      (gmLoop (n + 1) s).isSome = true)
    ∧ (∀ c : OKLCH, (gmLoop (gmFuel c) (gmInit c)).isSome = true) := by
  refine ⟨gmStepBody_inr_halves, gmLoop_isSome, ?_⟩
  intro c
  have hw : (gmInit c).cmax - (gmInit c).cmin ≤ gmEps * 2 ^ ⌈c.C / gmEps⌉₊ := by
    show c.C - 0 ≤ gmEps * 2 ^ ⌈c.C / gmEps⌉₊
    have heps : (0 : ℝ) < gmEps := by unfold gmEps; norm_num
    rcases le_or_lt c.C 0 with hc | hc
    · have : (0 : ℝ) < gmEps * 2 ^ ⌈c.C / gmEps⌉₊ := by positivity
      linarith
    · have h1 : c.C / gmEps ≤ (⌈c.C / gmEps⌉₊ : ℝ) := Nat.le_ceil _
      have h2 : ((⌈c.C / gmEps⌉₊ : ℕ) : ℝ) ≤ (2 : ℝ) ^ ⌈c.C / gmEps⌉₊ := by
        have := Nat.lt_two_pow ⌈c.C / gmEps⌉₊
        calc ((⌈c.C / gmEps⌉₊ : ℕ) : ℝ) ≤ ((2 ^ ⌈c.C / gmEps⌉₊ : ℕ) : ℝ) := by
              exact_mod_cast this.le
          _ = (2 : ℝ) ^ ⌈c.C / gmEps⌉₊ := by push_cast; ring
      have h3 : c.C ≤ gmEps * (⌈c.C / gmEps⌉₊ : ℝ) := by
        rw [div_le_iff₀ heps] at h1
        linarith [h1]
      have h4 : gmEps * (⌈c.C / gmEps⌉₊ : ℝ) ≤ gmEps * (2 : ℝ) ^ ⌈c.C / gmEps⌉₊ :=
        mul_le_mul_of_nonneg_left h2 heps.le
      linarith
  have := gmLoop_isSome ⌈c.C / gmEps⌉₊ (gmInit c) hw
  exact this

/-- C2 witness: the termination clause applied to a concrete zero-width
state, and the fuel clause at a concrete input. -/
theorem c2_witness :
    (gmLoop 1 ⟨0, 0, ⟨0, 0, 0⟩, ⟨0, 0, 0⟩, True⟩).isSome = true :=
  c2_binary_search_terminates.2.1 0 ⟨0, 0, ⟨0, 0, 0⟩, ⟨0, 0, 0⟩, True⟩
    (by unfold gmEps; norm_num)

/-- C1 (amended): for every OKLCH input with `L ∈ [0,1]` the mapper's
output is the OKLCH form of the OKLab image of some channel-wise clipped —
hence in-gamut — linear-RGB color, and the output's OKLab form differs
from that color's OKLab image by less than the JND 0.02.  (The output
converted back to linear RGB need not itself satisfy `InGamut`, and can
differ from the direct clip of the input by more than the JND; see the
counterexample.) -/
theorem c1_gamut_mapper_output_near_clip : ∀ c : OKLCH, 0 ≤ c.L → c.L ≤ 1 →
    ∃ lin : LSRGB, lin.InGamut
      ∧ c.GamutMappedLSRGB = (((lin.CIEXYZ).OKLAB)).OKLCH
      ∧ DeltaE ((c.GamutMappedLSRGB).OKLAB) ((lin.CIEXYZ).OKLAB) < JND := by
  intro c h0 h1
  obtain ⟨lin, hg, heq⟩ := gamutMapped_shape c h0 h1
  refine ⟨lin, hg, heq, ?_⟩
  rw [heq]
  exact roundtrip_deltaE_lt_JND _

/-- C1 witness: the amended theorem at the achromatic black input. -/
theorem c1_witness :
    ∃ lin : LSRGB, lin.InGamut
      ∧ (OKLCH.mk 0 0 0).GamutMappedLSRGB = (((lin.CIEXYZ).OKLAB)).OKLCH
      ∧ DeltaE (((OKLCH.mk 0 0 0).GamutMappedLSRGB).OKLAB)
          ((lin.CIEXYZ).OKLAB) < JND :=
  c1_gamut_mapper_output_near_clip ⟨0, 0, 0⟩ le_rfl zero_le_one

/-- C3 (amended): `GamutMappedLSRGB` returns immediately, with lightness
clamped into `[0,1]` and chroma and hue forced to 0, whenever `L` is
outside `[0,1]`; `AutoGamutMapping`'s guard instead tests `L` against
`[0,100]` (while still clamping into `[0,1]`), so lightness values in
`(1,100]` do not take the early return there (see the counterexample). -/
theorem c3_lightness_guard : ∀ c : OKLCH,
    ((c.L < 0 ∨ c.L > 1) →
      c.GamutMappedLSRGB = ⟨min (max c.L 0) 1, 0, 0⟩)
    ∧ ((c.L < 0 ∨ c.L > 100) →
      c.AutoGamutMapping = ⟨min (max c.L 0) 1, 0, 0⟩) := by
  intro c
  constructor
  · intro h
    unfold OKLCH.GamutMappedLSRGB
    rw [if_pos h]
  · intro h
    unfold OKLCH.AutoGamutMapping
    rw [if_pos h]

/-- C3 witness: both mappers early-return the clamped black for `L = −1`. -/
theorem c3_witness :
    (OKLCH.mk (-1) 5 7).GamutMappedLSRGB = ⟨0, 0, 0⟩
    ∧ (OKLCH.mk (-1) 5 7).AutoGamutMapping = ⟨0, 0, 0⟩ := by
  have h := c3_lightness_guard ⟨-1, 5, 7⟩
  have e : min (max (-1 : ℝ) 0) 1 = 0 := by norm_num
  constructor
  · rw [h.1 (Or.inl (by norm_num)), e]
  · rw [h.2 (Or.inl (by norm_num)), e]

/-- C6 (code bug): for the valid SRGB color `(0.04, 0.04, 0.04)` — whose
CIEXYZ image has `Y = 1/323 ≈ 0.0031`, well below the `ε = 216/24389`
branch point — converting its CIEXYZ form to CIELAB and back yields
`Y ≈ 0.3414`: the low-lightness branch of `CIELAB.CIEXYZ` computes
`(116·L − 16)/κ` instead of undoing the forward branch (`L/κ`), so the
round trip misses by ≈ 0.338, far beyond the claimed 1e-5. -/
theorem c6_lab_roundtrip_bug :
    ¬ |(((((SRGB.mk 0.04 0.04 0.04).LSRGB).CIEXYZ).CIELAB).CIEXYZ).Y
        - (((SRGB.mk 0.04 0.04 0.04).LSRGB).CIEXYZ).Y| ≤ 1e-5 := by
  have ht : transferFunc 0.04 = 1 / 323 := by
    unfold transferFunc
    rw [if_pos (by rw [abs_of_nonneg (by norm_num : (0 : ℝ) ≤ 0.04)]; norm_num)]
    norm_num
  have h1 : (SRGB.mk 0.04 0.04 0.04).LSRGB = ⟨1 / 323, 1 / 323, 1 / 323⟩ := by
    show LSRGB.mk (transferFunc 0.04) (transferFunc 0.04) (transferFunc 0.04) = _
    rw [ht]
  have h2 : (LSRGB.mk (1 / 323) (1 / 323) (1 / 323)).CIEXYZ
      = ⟨3127 / 1062670, 1 / 323, 3583 / 1062670⟩ := by
    unfold LSRGB.CIEXYZ CIEXYZ.ofVec MulMatVec linSRGBToXYZ LSRGB.vec
    norm_num
  have h3 : (CIEXYZ.mk (3127 / 1062670) (1 / 323) (3583 / 1062670)).CIELAB
      = ⟨24389 / 8721, -3432015875 / 19837711026, -5573075 / 3613078⟩ := by
    unfold CIEXYZ.CIELAB labF DivElem CIEXYZ.vec d50 d50x d50z
    norm_num
  have h4 : ((CIELAB.mk (24389 / 8721) (-3432015875 / 19837711026)
      (-5573075 / 3613078)).CIEXYZ).Y = 2689588 / 7877647 := by
    unfold CIELAB.CIEXYZ labf0 labf1 labf2 MulElem CIEXYZ.ofVec d50 d50x d50z
    norm_num
  rw [h1, h2, h3, h4]
  norm_num
  rw [abs_of_nonneg (by norm_num : (0 : ℝ) ≤ 2665199 / 7877647)]
  norm_num

/-- C3 counterexample: at `OKLCH{L:2, C:0, H:0}` — lightness outside `[0,1]`
— `AutoGamutMapping` does not take the early return (its guard tests
`L > 100`): it clips the color to white and returns white's OKLCH round
trip, whose lightness is strictly greater than 1, so the result is not the
claimed `⟨1, 0, 0⟩`. -/
theorem c3_counterexample :
    (OKLCH.mk 2 0 0).AutoGamutMapping ≠ ⟨1, 0, 0⟩ := by
  have hA : (OKLCH.mk 2 0 0).OKLAB = OKLAB.mk 2 0 0 := by
    show OKLAB.mk 2 (0 * Real.cos ((0 : ℝ) * Real.pi / 180))
        (0 * Real.sin ((0 : ℝ) * Real.pi / 180)) = _
    norm_num
  have hxyz8 : (OKLAB.mk 2 0 0).CIEXYZ
      = ⟨9504559270516719 / 1250000000000000, 4999999999999999 / 625000000000000,
         10890577507598783 / 1250000000000000⟩ := by
    unfold OKLAB.CIEXYZ CIEXYZ.ofVec MulMatVec cubeVec oklabToLMS lmsToXYZ OKLAB.vec
    norm_num
  have hrgb8 : (CIEXYZ.mk (9504559270516719 / 1250000000000000)
      (4999999999999999 / 625000000000000)
      (10890577507598783 / 1250000000000000)).LSRGB
      = ⟨1979500000000001801 / 247437500000000000,
         43940499999999976163 / 5492562500000000000,
         2534599999999999807 / 316825000000000000⟩ := by
    unfold CIEXYZ.LSRGB LSRGB.ofVec MulMatVec xyzToLinSRGB CIEXYZ.vec
    norm_num
  have hclip : gmClip ⟨2, 0, 0⟩ = ⟨1, 1, 1⟩ := by
    unfold gmClip
    rw [hA, hxyz8, hrgb8]
    unfold LSRGB.ClipToGamut
    rw [Clamp_eq_hi _ _ _ (by norm_num) (by norm_num),
      Clamp_eq_hi _ _ _ (by norm_num) (by norm_num),
      Clamp_eq_hi _ _ _ (by norm_num) (by norm_num)]
  have hfuel : gmFuel ⟨2, 0, 0⟩ = 1 := by
    unfold gmFuel gmEps
    norm_num
  have hloop : gmLoop 1 (gmInit ⟨2, 0, 0⟩) = some (gmExit (gmInit ⟨2, 0, 0⟩)) := by
    show gmLoop (0 + 1) (gmInit ⟨2, 0, 0⟩) = _
    rw [gmLoop, if_pos]
    show (0 : ℝ) - 0 ≤ gmEps
    unfold gmEps
    norm_num
  have hmap : (OKLCH.mk 2 0 0).AutoGamutMapping
      = (((LSRGB.mk 1 1 1).CIEXYZ).OKLAB).OKLCH := by
    unfold OKLCH.AutoGamutMapping
    rw [if_neg (show ¬ ((2 : ℝ) < 0 ∨ (2 : ℝ) > 100) by norm_num)]
    rw [hfuel, hloop]
    rw [show (some (gmExit (gmInit ⟨2, 0, 0⟩))).getD
        ((((gmClip ⟨2, 0, 0⟩).CIEXYZ).OKLAB).OKLCH)
        = (((gmClip ⟨2, 0, 0⟩).CIEXYZ).OKLAB).OKLCH from rfl]
    rw [ite_self, hclip]
  have hXw : (LSRGB.mk 1 1 1).CIEXYZ = ⟨3127 / 3290, 1, 3583 / 3290⟩ := by
    unfold LSRGB.CIEXYZ CIEXYZ.ofVec MulMatVec linSRGBToXYZ LSRGB.vec
    norm_num
  have hlmsw : MulMatVec xyzToLMS (CIEXYZ.mk (3127 / 3290) 1 (3583 / 3290)).vec
      = ⟨32900000000000000513 / 32900000000000000000,
         32900000000000003447 / 32900000000000000000,
         32900000000000001201 / 32900000000000000000⟩ := by
    unfold MulMatVec xyzToLMS CIEXYZ.vec
    norm_num
  have hL : ((((LSRGB.mk 1 1 1).CIEXYZ).OKLAB).OKLCH).L
      = 0.2104542683093140 * Cbrt (32900000000000000513 / 32900000000000000000)
        + 0.7936177747023054 * Cbrt (32900000000000003447 / 32900000000000000000)
        + -0.0040720430116193 * Cbrt (32900000000000001201 / 32900000000000000000) := by
    rw [hXw]
    show (MulMatVec lmsToOKLAB (cbrtVec (MulMatVec xyzToLMS
        (CIEXYZ.mk (3127 / 3290) 1 (3583 / 3290)).vec))).x = _
    rw [hlmsw]
    rfl
  have hl := Cbrt_bounds
    (show ((1 : ℝ) + 518 / 10 ^ 20) * (1 + 518 / 10 ^ 20) * (1 + 518 / 10 ^ 20)
      ≤ 32900000000000000513 / 32900000000000000000 by norm_num)
    (show (32900000000000000513 : ℝ) / 32900000000000000000
      ≤ (1 + 520 / 10 ^ 20) * (1 + 520 / 10 ^ 20) * (1 + 520 / 10 ^ 20) by norm_num)
  have hm := Cbrt_bounds
    (show ((1 : ℝ) + 3491 / 10 ^ 20) * (1 + 3491 / 10 ^ 20) * (1 + 3491 / 10 ^ 20)
      ≤ 32900000000000003447 / 32900000000000000000 by norm_num)
    (show (32900000000000003447 : ℝ) / 32900000000000000000
      ≤ (1 + 3493 / 10 ^ 20) * (1 + 3493 / 10 ^ 20) * (1 + 3493 / 10 ^ 20) by norm_num)
  have hs := Cbrt_bounds
    (show ((1 : ℝ) + 1215 / 10 ^ 20) * (1 + 1215 / 10 ^ 20) * (1 + 1215 / 10 ^ 20)
      ≤ 32900000000000001201 / 32900000000000000000 by norm_num)
    (show (32900000000000001201 : ℝ) / 32900000000000000000
      ≤ (1 + 1217 / 10 ^ 20) * (1 + 1217 / 10 ^ 20) * (1 + 1217 / 10 ^ 20) by norm_num)
  intro heq
  have hone : ((((LSRGB.mk 1 1 1).CIEXYZ).OKLAB).OKLCH).L = 1 := by
    rw [← hmap]
    exact congrArg OKLCH.L heq
  rw [hL] at hone
  linarith [hl.1, hl.2, hm.1, hm.2, hs.1, hs.2]

/-- Cube monotonicity packaged as a two-sided box, used by the gamut-mapper
counterexample computation. -/
theorem c1aux_cubebox (a b p : ℝ) (h1 : a ≤ p) (h2 : p ≤ b) :
    a * a * a ≤ p * p * p ∧ p * p * p ≤ b * b * b :=
  ⟨cube_le_cube h1, cube_le_cube h2⟩

/-- Cube-root bracketing packaged as a two-sided box, used by the
gamut-mapper counterexample computation. -/
theorem c1aux_cbrtbox (a b x : ℝ) (h1 : a * a * a ≤ x) (h2 : x ≤ b * b * b) :
    a ≤ Cbrt x ∧ Cbrt x ≤ b := Cbrt_bounds h1 h2

set_option maxHeartbeats 3200000 in
/-- Interval evaluation of the OKLab-to-linear-RGB conversion on the tight
box around the gamut-mapper counterexample's loop output: the red channel is
(barely) negative, and all three channels are localized. -/
theorem c1aux_out (y : OKLAB)
    (hL1 : (8091216063191185561121303973 / 10 ^ 28 : ℝ) ≤ y.L) (hL2 : y.L ≤ 8091216063191185561123320262 / 10 ^ 28)
    (hA1 : (-(1481745700418242656979281819 / 10 ^ 28) : ℝ) ≤ y.A) (hA2 : y.A ≤ -(1481745700418242656969567449 / 10 ^ 28))
    (hB1 : (35542375007533412869652310 / 10 ^ 28 : ℝ) ≤ y.B) (hB2 : y.B ≤ 35542375007533412872887014 / 10 ^ 28) :
    ((y.CIEXYZ).LSRGB).R < 0 ∧ -(1 / 10 ^ 13) ≤ ((y.CIEXYZ).LSRGB).R
    ∧ ((738661 / 1000000 : ℝ) ≤ ((y.CIEXYZ).LSRGB).G ∧ ((y.CIEXYZ).LSRGB).G ≤ 369331 / 500000)
    ∧ ((537841 / 1000000 : ℝ) ≤ ((y.CIEXYZ).LSRGB).B ∧ ((y.CIEXYZ).LSRGB).B ≤ 268921 / 500000) := by
  obtain ⟨yL, yA, yB⟩ := y
  dsimp only at hL1 hL2 hA1 hA2 hB1 hB2
  unfold CIEXYZ.LSRGB OKLAB.CIEXYZ LSRGB.ofVec CIEXYZ.ofVec MulMatVec cubeVec xyzToLinSRGB lmsToXYZ oklabToLMS OKLAB.vec CIEXYZ.vec
  dsimp only
  have hp1 := c1aux_cubebox (75116144437210594347187373190205569448062729 / 100000000000000000000000000000000000000000000) (75116144437210594347253018411119521437311603 / 100000000000000000000000000000000000000000000)
    (1.0000000000000000 * yL + 0.3963377773761749 * yA + 0.2158037573099136 * yB)
    (by linarith) (by linarith)
  have hp2 := c1aux_cubebox (20613404011318825090626018307388482048746063 / 25000000000000000000000000000000000000000000) (2576675501414853136329267382273312633911647 / 3125000000000000000000000000000000000000000)
    (1.0000000000000000 * yL + -0.1055613458156586 * yA + -0.0638541728258133 * yB)
    (by linarith) (by linarith)
  have hp3 := c1aux_cubebox (81779063948369314230044920098348431347007143 / 100000000000000000000000000000000000000000000) (81779063948369314230115551547126339885445941 / 100000000000000000000000000000000000000000000)
    (1.0000000000000000 * yL + -0.0894841775298119 * yA + -1.2914855480194092 * yB)
    (by linarith) (by linarith)
  refine ⟨?_, ?_, ⟨?_, ?_⟩, ⟨?_, ?_⟩⟩ <;>
    linarith [hp1.1, hp1.2, hp2.1, hp2.2, hp3.1, hp3.2]

set_option maxHeartbeats 3200000 in
/-- Interval evaluation of the linear-RGB-to-OKLab lightness on the box
containing the gamut-mapper counterexample's final output color. -/
theorem c1aux_okoutL (lin : LSRGB)
    (hR1 : -(1 / 10 ^ 13) ≤ lin.R) (hR2 : lin.R ≤ 0)
    (hG1 : (738661 / 1000000 : ℝ) ≤ lin.G) (hG2 : lin.G ≤ 369331 / 500000)
    (hB1 : (537841 / 1000000 : ℝ) ≤ lin.B) (hB2 : lin.B ≤ 268921 / 500000) :
    ((lin.CIEXYZ).OKLAB).L ≤ 82 / 100 := by
  obtain ⟨R, G, B⟩ := lin
  dsimp only at hR1 hR2 hG1 hG2 hB1 hB2
  unfold CIEXYZ.OKLAB LSRGB.CIEXYZ OKLAB.ofVec CIEXYZ.ofVec MulMatVec cbrtVec xyzToLMS linSRGBToXYZ lmsToOKLAB LSRGB.vec CIEXYZ.vec
  dsimp only
  have hc1 := c1aux_cbrtbox (18779 / 25000) (75117 / 100000)
    (0.8190224379967030 * (506752 / 1228815 * R + 87881 / 245763 * G + 12673 / 70218 * B) + 0.3619062600528904 * (87098 / 409605 * R + 175762 / 245763 * G + 12673 / 175545 * B) + -0.1288737815209879 * (7918 / 409605 * R + 87881 / 737289 * G + 1001167 / 1053270 * B))
    (by linarith) (by linarith)
  have hc2 := c1aux_cbrtbox (82453 / 100000) (41227 / 50000)
    (0.0329836539323885 * (506752 / 1228815 * R + 87881 / 245763 * G + 12673 / 70218 * B) + 0.9292868615863434 * (87098 / 409605 * R + 175762 / 245763 * G + 12673 / 175545 * B) + 0.0361446663506424 * (7918 / 409605 * R + 87881 / 737289 * G + 1001167 / 1053270 * B))
    (by linarith) (by linarith)
  have hc3 := c1aux_cbrtbox (81779 / 100000) (4089 / 5000)
    (0.0481771893596242 * (506752 / 1228815 * R + 87881 / 245763 * G + 12673 / 70218 * B) + 0.2642395317527308 * (87098 / 409605 * R + 175762 / 245763 * G + 12673 / 175545 * B) + 0.6335478284694309 * (7918 / 409605 * R + 87881 / 737289 * G + 1001167 / 1053270 * B))
    (by linarith) (by linarith)
  linarith [hc1.1, hc1.2, hc2.1, hc2.2, hc3.1, hc3.2]

set_option maxHeartbeats 3200000 in
/-- C1 counterexample: at OKLCH(0.8, 0.331115, 180) the gamut mapper's
binary search stops through its early JND return on the very first
iteration (chroma half of the input, E ≈ 0.01995 within eps of the JND),
and the returned color's linear-RGB form has a slightly negative red
channel (so it is out of gamut) while its lightness ≈ 0.809 differs from
the direct clip's lightness ≈ 0.873 by far more than the JND: both
disjuncts of the claimed property fail. -/
theorem c1_counterexample :
    ¬ (((((((OKLCH.mk (4 / 5) (331115 / 1000000) 180).GamutMappedLSRGB).OKLAB).CIEXYZ)).LSRGB).InGamut
      ∨ DeltaE ((((((((OKLCH.mk (4 / 5) (331115 / 1000000) 180).GamutMappedLSRGB).OKLAB).CIEXYZ)).LSRGB).CIEXYZ).OKLAB)
          ((((((((OKLCH.mk (4 / 5) (331115 / 1000000) 180).OKLAB).CIEXYZ).LSRGB).ClipToGamut).CIEXYZ)).OKLAB) < JND) := by
  have hJnd : JND = (2 / 100 : ℝ) := by unfold JND; norm_num
  have hEps : gmEps = (1 / 10000 : ℝ) := by unfold gmEps; norm_num
  have hA0 : (OKLCH.mk (4 / 5) (331115 / 1000000) 180).OKLAB = OKLAB.mk (4 / 5) (-(331115 / 1000000)) 0 := by
    show OKLAB.mk (4 / 5) (331115 / 1000000 * Real.cos ((180 : ℝ) * Real.pi / 180))
        (331115 / 1000000 * Real.sin ((180 : ℝ) * Real.pi / 180)) = _
    rw [show (180 : ℝ) * Real.pi / 180 = Real.pi by ring, Real.cos_pi, Real.sin_pi]
    norm_num
  have hxyz1 : (OKLAB.mk (4 / 5) (-(331115 / 1000000)) 0).CIEXYZ
      = CIEXYZ.mk (1623607549465027492179618573987492066890832256494508591806296770091656657021043 / 8000000000000000000000000000000000000000000000000000000000000000000000000000000) (11887197518507663832590246170260580808639902398204029397612529288779326366922803 / 20000000000000000000000000000000000000000000000000000000000000000000000000000000) (51038389240918215921002840349704847986585126506784171529706626387222447090578467 / 80000000000000000000000000000000000000000000000000000000000000000000000000000000) := by
    unfold OKLAB.CIEXYZ CIEXYZ.ofVec MulMatVec cubeVec oklabToLMS lmsToXYZ OKLAB.vec
    norm_num
  have hrgb1 : (CIEXYZ.mk (1623607549465027492179618573987492066890832256494508591806296770091656657021043 / 8000000000000000000000000000000000000000000000000000000000000000000000000000000) (11887197518507663832590246170260580808639902398204029397612529288779326366922803 / 20000000000000000000000000000000000000000000000000000000000000000000000000000000) (51038389240918215921002840349704847986585126506784171529706626387222447090578467 / 80000000000000000000000000000000000000000000000000000000000000000000000000000000)).LSRGB
      = LSRGB.mk (-(90915203237651232187367440441573181594951708340128428449624789991269062311767214183 / 158360000000000000000000000000000000000000000000000000000000000000000000000000000000)) (66424129058838731464141022044909785429975131339508675897570045291932899578400042996771 / 70304800000000000000000000000000000000000000000000000000000000000000000000000000000000) (114438406952891740410543242406082770458110309233846119848268219968002524715263027119 / 202768000000000000000000000000000000000000000000000000000000000000000000000000000000) := by
    unfold CIEXYZ.LSRGB LSRGB.ofVec MulMatVec xyzToLinSRGB CIEXYZ.vec
    norm_num
  have hclip1 : gmClip (OKLCH.mk (4 / 5) (331115 / 1000000) 180) = (LSRGB.mk 0 (66424129058838731464141022044909785429975131339508675897570045291932899578400042996771 / 70304800000000000000000000000000000000000000000000000000000000000000000000000000000000) (114438406952891740410543242406082770458110309233846119848268219968002524715263027119 / 202768000000000000000000000000000000000000000000000000000000000000000000000000000000)) := by
    unfold gmClip
    rw [hA0, hxyz1, hrgb1]
    unfold LSRGB.ClipToGamut
    rw [Clamp_eq_lo _ _ _ (by norm_num) (by norm_num),
      Clamp_eq_self _ _ _ (by norm_num) (by norm_num),
      Clamp_eq_self _ _ _ (by norm_num) (by norm_num)]
  have hlms1 : MulMatVec xyzToLMS ((LSRGB.mk 0 (66424129058838731464141022044909785429975131339508675897570045291932899578400042996771 / 70304800000000000000000000000000000000000000000000000000000000000000000000000000000000) (114438406952891740410543242406082770458110309233846119848268219968002524715263027119 / 202768000000000000000000000000000000000000000000000000000000000000000000000000000000)).CIEXYZ).vec
      = Vec3.mk (3857495741125273678071682899117239845542611861421204077405279367170552628087384596620456956250643 / 7200000000000000000000000000000000000000000000000000000000000000000000000000000000000000000000000) (12667306084117026533817277719756520531428317767256163588636840907888630840608640852476930300988027 / 18000000000000000000000000000000000000000000000000000000000000000000000000000000000000000000000000) (22381797135119489857361049613904992266108890148282415498278056610791838092597546761738982070622459 / 36000000000000000000000000000000000000000000000000000000000000000000000000000000000000000000000000) := by
    unfold LSRGB.CIEXYZ CIEXYZ.ofVec MulMatVec linSRGBToXYZ xyzToLMS LSRGB.vec CIEXYZ.vec
    norm_num
  have hy1 : (((LSRGB.mk 0 (66424129058838731464141022044909785429975131339508675897570045291932899578400042996771 / 70304800000000000000000000000000000000000000000000000000000000000000000000000000000000) (114438406952891740410543242406082770458110309233846119848268219968002524715263027119 / 202768000000000000000000000000000000000000000000000000000000000000000000000000000000)).CIEXYZ).OKLAB) = OKLAB.ofVec (MulMatVec lmsToOKLAB
      (cbrtVec (Vec3.mk (3857495741125273678071682899117239845542611861421204077405279367170552628087384596620456956250643 / 7200000000000000000000000000000000000000000000000000000000000000000000000000000000000000000000000) (12667306084117026533817277719756520531428317767256163588636840907888630840608640852476930300988027 / 18000000000000000000000000000000000000000000000000000000000000000000000000000000000000000000000000) (22381797135119489857361049613904992266108890148282415498278056610791838092597546761738982070622459 / 36000000000000000000000000000000000000000000000000000000000000000000000000000000000000000000000000)))) := by
    show OKLAB.ofVec (MulMatVec lmsToOKLAB (cbrtVec (MulMatVec xyzToLMS ((LSRGB.mk 0 (66424129058838731464141022044909785429975131339508675897570045291932899578400042996771 / 70304800000000000000000000000000000000000000000000000000000000000000000000000000000000) (114438406952891740410543242406082770458110309233846119848268219968002524715263027119 / 202768000000000000000000000000000000000000000000000000000000000000000000000000000000)).CIEXYZ).vec))) = _
    rw [hlms1]
  have hy1A : ((((LSRGB.mk 0 (66424129058838731464141022044909785429975131339508675897570045291932899578400042996771 / 70304800000000000000000000000000000000000000000000000000000000000000000000000000000000) (114438406952891740410543242406082770458110309233846119848268219968002524715263027119 / 202768000000000000000000000000000000000000000000000000000000000000000000000000000000)).CIEXYZ).OKLAB)).A = 1.9779985324311684 * Cbrt (3857495741125273678071682899117239845542611861421204077405279367170552628087384596620456956250643 / 7200000000000000000000000000000000000000000000000000000000000000000000000000000000000000000000000)
      + -2.4285922420485799 * Cbrt (12667306084117026533817277719756520531428317767256163588636840907888630840608640852476930300988027 / 18000000000000000000000000000000000000000000000000000000000000000000000000000000000000000000000000) + 0.4505937096174110 * Cbrt (22381797135119489857361049613904992266108890148282415498278056610791838092597546761738982070622459 / 36000000000000000000000000000000000000000000000000000000000000000000000000000000000000000000000000) := by
    rw [hy1]; rfl
  have hy1L : ((((LSRGB.mk 0 (66424129058838731464141022044909785429975131339508675897570045291932899578400042996771 / 70304800000000000000000000000000000000000000000000000000000000000000000000000000000000) (114438406952891740410543242406082770458110309233846119848268219968002524715263027119 / 202768000000000000000000000000000000000000000000000000000000000000000000000000000000)).CIEXYZ).OKLAB)).L = 0.2104542683093140 * Cbrt (3857495741125273678071682899117239845542611861421204077405279367170552628087384596620456956250643 / 7200000000000000000000000000000000000000000000000000000000000000000000000000000000000000000000000)
      + 0.7936177747023054 * Cbrt (12667306084117026533817277719756520531428317767256163588636840907888630840608640852476930300988027 / 18000000000000000000000000000000000000000000000000000000000000000000000000000000000000000000000000) + -0.0040720430116193 * Cbrt (22381797135119489857361049613904992266108890148282415498278056610791838092597546761738982070622459 / 36000000000000000000000000000000000000000000000000000000000000000000000000000000000000000000000000) := by
    rw [hy1]; rfl
  have hu1 := Cbrt_bounds
    (show (8121900278 / 10 ^ 10 : ℝ) * (8121900278 / 10 ^ 10) * (8121900278 / 10 ^ 10) ≤ 3857495741125273678071682899117239845542611861421204077405279367170552628087384596620456956250643 / 7200000000000000000000000000000000000000000000000000000000000000000000000000000000000000000000000 by norm_num)
    (show (3857495741125273678071682899117239845542611861421204077405279367170552628087384596620456956250643 / 7200000000000000000000000000000000000000000000000000000000000000000000000000000000000000000000000 : ℝ) ≤ (8121900280 / 10 ^ 10) * (8121900280 / 10 ^ 10) * (8121900280 / 10 ^ 10) by norm_num)
  have hv1 := Cbrt_bounds
    (show (8894821827 / 10 ^ 10 : ℝ) * (8894821827 / 10 ^ 10) * (8894821827 / 10 ^ 10) ≤ 12667306084117026533817277719756520531428317767256163588636840907888630840608640852476930300988027 / 18000000000000000000000000000000000000000000000000000000000000000000000000000000000000000000000000 by norm_num)
    (show (12667306084117026533817277719756520531428317767256163588636840907888630840608640852476930300988027 / 18000000000000000000000000000000000000000000000000000000000000000000000000000000000000000000000000 : ℝ) ≤ (8894821829 / 10 ^ 10) * (8894821829 / 10 ^ 10) * (8894821829 / 10 ^ 10) by norm_num)
  have hw1 := Cbrt_bounds
    (show (8534881284 / 10 ^ 10 : ℝ) * (8534881284 / 10 ^ 10) * (8534881284 / 10 ^ 10) ≤ 22381797135119489857361049613904992266108890148282415498278056610791838092597546761738982070622459 / 36000000000000000000000000000000000000000000000000000000000000000000000000000000000000000000000000 by norm_num)
    (show (22381797135119489857361049613904992266108890148282415498278056610791838092597546761738982070622459 / 36000000000000000000000000000000000000000000000000000000000000000000000000000000000000000000000000 : ℝ) ≤ (8534881286 / 10 ^ 10) * (8534881286 / 10 ^ 10) * (8534881286 / 10 ^ 10) by norm_num)
  have hy1A_lo : (-(1 / 5) : ℝ) ≤ ((((LSRGB.mk 0 (66424129058838731464141022044909785429975131339508675897570045291932899578400042996771 / 70304800000000000000000000000000000000000000000000000000000000000000000000000000000000) (114438406952891740410543242406082770458110309233846119848268219968002524715263027119 / 202768000000000000000000000000000000000000000000000000000000000000000000000000000000)).CIEXYZ).OKLAB)).A := by
    rw [hy1A]
    linarith [hu1.1, hu1.2, hv1.1, hv1.2, hw1.1, hw1.2]
  have hy1L_lo : (86 / 100 : ℝ) ≤ ((((LSRGB.mk 0 (66424129058838731464141022044909785429975131339508675897570045291932899578400042996771 / 70304800000000000000000000000000000000000000000000000000000000000000000000000000000000) (114438406952891740410543242406082770458110309233846119848268219968002524715263027119 / 202768000000000000000000000000000000000000000000000000000000000000000000000000000000)).CIEXYZ).OKLAB)).L := by
    rw [hy1L]
    linarith [hu1.1, hu1.2, hv1.1, hv1.2, hw1.1, hw1.2]
  have hgmE : gmE (OKLCH.mk (4 / 5) (331115 / 1000000) 180) = DeltaE (OKLAB.mk (4 / 5) (-(331115 / 1000000)) 0) (((LSRGB.mk 0 (66424129058838731464141022044909785429975131339508675897570045291932899578400042996771 / 70304800000000000000000000000000000000000000000000000000000000000000000000000000000000) (114438406952891740410543242406082770458110309233846119848268219968002524715263027119 / 202768000000000000000000000000000000000000000000000000000000000000000000000000000000)).CIEXYZ).OKLAB) := by
    unfold gmE
    rw [hA0, hclip1]
  have hEge : ¬ gmE (OKLCH.mk (4 / 5) (331115 / 1000000) 180) < JND := by
    rw [hgmE, hJnd]
    intro hlt
    have habs := deltaE_ge_abs_A (OKLAB.mk (4 / 5) (-(331115 / 1000000)) 0) (((LSRGB.mk 0 (66424129058838731464141022044909785429975131339508675897570045291932899578400042996771 / 70304800000000000000000000000000000000000000000000000000000000000000000000000000000000) (114438406952891740410543242406082770458110309233846119848268219968002524715263027119 / 202768000000000000000000000000000000000000000000000000000000000000000000000000000000)).CIEXYZ).OKLAB)
    have hAx : (OKLAB.mk (4 / 5) (-(331115 / 1000000)) 0).A = -(331115 / 1000000) := rfl
    rw [hAx] at habs
    have hneg := neg_abs_le ((-(331115 / 1000000) : ℝ) - ((((LSRGB.mk 0 (66424129058838731464141022044909785429975131339508675897570045291932899578400042996771 / 70304800000000000000000000000000000000000000000000000000000000000000000000000000000000) (114438406952891740410543242406082770458110309233846119848268219968002524715263027119 / 202768000000000000000000000000000000000000000000000000000000000000000000000000000000)).CIEXYZ).OKLAB)).A)
    linarith [hy1A_lo]
  have hcur : gmCur (gmInit (OKLCH.mk (4 / 5) (331115 / 1000000) 180)) = OKLCH.mk (4 / 5) (331115 / 2000000) 180 := by
    unfold gmCur gmChroma gmInit
    norm_num
  have hcurlab : (gmCur (gmInit (OKLCH.mk (4 / 5) (331115 / 1000000) 180))).OKLAB = OKLAB.mk (4 / 5) (-(331115 / 2000000)) 0 := by
    rw [hcur]
    show OKLAB.mk (4 / 5) (331115 / 2000000 * Real.cos ((180 : ℝ) * Real.pi / 180))
        (331115 / 2000000 * Real.sin ((180 : ℝ) * Real.pi / 180)) = _
    rw [show (180 : ℝ) * Real.pi / 180 = Real.pi by ring, Real.cos_pi, Real.sin_pi]
    norm_num
  have hxyz2 : (OKLAB.mk (4 / 5) (-(331115 / 2000000)) 0).CIEXYZ
      = CIEXYZ.mk (21338953212156560412613710958675726083505512774766968826650776770091656657021043 / 64000000000000000000000000000000000000000000000000000000000000000000000000000000) (88443225245842567058716513924869720544130850885471982566730929288779326366922803 / 160000000000000000000000000000000000000000000000000000000000000000000000000000000) (382705601244660255223246909633909879527741473598864526508044226387222447090578467 / 640000000000000000000000000000000000000000000000000000000000000000000000000000000) := by
    unfold OKLAB.CIEXYZ CIEXYZ.ofVec MulMatVec cubeVec oklabToLMS lmsToXYZ OKLAB.vec
    norm_num
  have hrgb2 : (CIEXYZ.mk (21338953212156560412613710958675726083505512774766968826650776770091656657021043 / 64000000000000000000000000000000000000000000000000000000000000000000000000000000) (88443225245842567058716513924869720544130850885471982566730929288779326366922803 / 160000000000000000000000000000000000000000000000000000000000000000000000000000000) (382705601244660255223246909633909879527741473598864526508044226387222447090578467 / 640000000000000000000000000000000000000000000000000000000000000000000000000000000)).LSRGB
      = LSRGB.mk (-(85349266020217107439868197262266952390289510205754846374474669991269062311767214183 / 1266880000000000000000000000000000000000000000000000000000000000000000000000000000000)) (415451603038117384259429202433222243754107336130142836610938525875932899578400042996771 / 562438400000000000000000000000000000000000000000000000000000000000000000000000000000000) (45918717892378060276180950134965618891963135850138075400664658735158027616592790901 / 85376000000000000000000000000000000000000000000000000000000000000000000000000000000) := by
    unfold CIEXYZ.LSRGB LSRGB.ofVec MulMatVec xyzToLinSRGB CIEXYZ.vec
    norm_num
  have hcurrgb : gmCurRGB (gmInit (OKLCH.mk (4 / 5) (331115 / 1000000) 180)) = LSRGB.mk (-(85349266020217107439868197262266952390289510205754846374474669991269062311767214183 / 1266880000000000000000000000000000000000000000000000000000000000000000000000000000000)) (415451603038117384259429202433222243754107336130142836610938525875932899578400042996771 / 562438400000000000000000000000000000000000000000000000000000000000000000000000000000000) (45918717892378060276180950134965618891963135850138075400664658735158027616592790901 / 85376000000000000000000000000000000000000000000000000000000000000000000000000000000) := by
    unfold gmCurRGB
    rw [hcurlab, hxyz2, hrgb2]
  have hnotin : ¬ (gmCurRGB (gmInit (OKLCH.mk (4 / 5) (331115 / 1000000) 180))).InGamut := by
    rw [hcurrgb]
    intro hg
    unfold LSRGB.InGamut at hg
    have := hg.2.2.2.1
    norm_num at this
  have hclip2 : gmClipped (gmInit (OKLCH.mk (4 / 5) (331115 / 1000000) 180)) = (LSRGB.mk 0 (415451603038117384259429202433222243754107336130142836610938525875932899578400042996771 / 562438400000000000000000000000000000000000000000000000000000000000000000000000000000000) (45918717892378060276180950134965618891963135850138075400664658735158027616592790901 / 85376000000000000000000000000000000000000000000000000000000000000000000000000000000)) := by
    unfold gmClipped
    rw [hcurrgb]
    unfold LSRGB.ClipToGamut
    rw [Clamp_eq_lo _ _ _ (by norm_num) (by norm_num),
      Clamp_eq_self _ _ _ (by norm_num) (by norm_num),
      Clamp_eq_self _ _ _ (by norm_num) (by norm_num)]
  have hlms2 : MulMatVec xyzToLMS ((LSRGB.mk 0 (415451603038117384259429202433222243754107336130142836610938525875932899578400042996771 / 562438400000000000000000000000000000000000000000000000000000000000000000000000000000000) (45918717892378060276180950134965618891963135850138075400664658735158027616592790901 / 85376000000000000000000000000000000000000000000000000000000000000000000000000000000)).CIEXYZ).vec
      = Vec3.mk (2026284586524591620357333094198315505441500112073476024702237111365703143879308921519497927368803369 / 4780800000000000000000000000000000000000000000000000000000000000000000000000000000000000000000000000) (6699921345525019619777919460246716005623981302196858699758159726527313293383981190755585214982006241 / 11952000000000000000000000000000000000000000000000000000000000000000000000000000000000000000000000000) (13073653968367692169596050888078851782290774961148007256156339600243751558509684381224335511861664097 / 23904000000000000000000000000000000000000000000000000000000000000000000000000000000000000000000000000) := by
    unfold LSRGB.CIEXYZ CIEXYZ.ofVec MulMatVec linSRGBToXYZ xyzToLMS LSRGB.vec CIEXYZ.vec
    norm_num
  have hy2 : (((LSRGB.mk 0 (415451603038117384259429202433222243754107336130142836610938525875932899578400042996771 / 562438400000000000000000000000000000000000000000000000000000000000000000000000000000000) (45918717892378060276180950134965618891963135850138075400664658735158027616592790901 / 85376000000000000000000000000000000000000000000000000000000000000000000000000000000)).CIEXYZ).OKLAB) = OKLAB.ofVec (MulMatVec lmsToOKLAB
      (cbrtVec (Vec3.mk (2026284586524591620357333094198315505441500112073476024702237111365703143879308921519497927368803369 / 4780800000000000000000000000000000000000000000000000000000000000000000000000000000000000000000000000) (6699921345525019619777919460246716005623981302196858699758159726527313293383981190755585214982006241 / 11952000000000000000000000000000000000000000000000000000000000000000000000000000000000000000000000000) (13073653968367692169596050888078851782290774961148007256156339600243751558509684381224335511861664097 / 23904000000000000000000000000000000000000000000000000000000000000000000000000000000000000000000000000)))) := by
    show OKLAB.ofVec (MulMatVec lmsToOKLAB (cbrtVec (MulMatVec xyzToLMS ((LSRGB.mk 0 (415451603038117384259429202433222243754107336130142836610938525875932899578400042996771 / 562438400000000000000000000000000000000000000000000000000000000000000000000000000000000) (45918717892378060276180950134965618891963135850138075400664658735158027616592790901 / 85376000000000000000000000000000000000000000000000000000000000000000000000000000000)).CIEXYZ).vec))) = _
    rw [hlms2]
  have hy2L : ((((LSRGB.mk 0 (415451603038117384259429202433222243754107336130142836610938525875932899578400042996771 / 562438400000000000000000000000000000000000000000000000000000000000000000000000000000000) (45918717892378060276180950134965618891963135850138075400664658735158027616592790901 / 85376000000000000000000000000000000000000000000000000000000000000000000000000000000)).CIEXYZ).OKLAB)).L = 0.2104542683093140 * Cbrt (2026284586524591620357333094198315505441500112073476024702237111365703143879308921519497927368803369 / 4780800000000000000000000000000000000000000000000000000000000000000000000000000000000000000000000000)
      + 0.7936177747023054 * Cbrt (6699921345525019619777919460246716005623981302196858699758159726527313293383981190755585214982006241 / 11952000000000000000000000000000000000000000000000000000000000000000000000000000000000000000000000000) + -0.0040720430116193 * Cbrt (13073653968367692169596050888078851782290774961148007256156339600243751558509684381224335511861664097 / 23904000000000000000000000000000000000000000000000000000000000000000000000000000000000000000000000000) := by
    rw [hy2]; rfl
  have hy2A : ((((LSRGB.mk 0 (415451603038117384259429202433222243754107336130142836610938525875932899578400042996771 / 562438400000000000000000000000000000000000000000000000000000000000000000000000000000000) (45918717892378060276180950134965618891963135850138075400664658735158027616592790901 / 85376000000000000000000000000000000000000000000000000000000000000000000000000000000)).CIEXYZ).OKLAB)).A = 1.9779985324311684 * Cbrt (2026284586524591620357333094198315505441500112073476024702237111365703143879308921519497927368803369 / 4780800000000000000000000000000000000000000000000000000000000000000000000000000000000000000000000000)
      + -2.4285922420485799 * Cbrt (6699921345525019619777919460246716005623981302196858699758159726527313293383981190755585214982006241 / 11952000000000000000000000000000000000000000000000000000000000000000000000000000000000000000000000000) + 0.4505937096174110 * Cbrt (13073653968367692169596050888078851782290774961148007256156339600243751558509684381224335511861664097 / 23904000000000000000000000000000000000000000000000000000000000000000000000000000000000000000000000000) := by
    rw [hy2]; rfl
  have hy2B : ((((LSRGB.mk 0 (415451603038117384259429202433222243754107336130142836610938525875932899578400042996771 / 562438400000000000000000000000000000000000000000000000000000000000000000000000000000000) (45918717892378060276180950134965618891963135850138075400664658735158027616592790901 / 85376000000000000000000000000000000000000000000000000000000000000000000000000000000)).CIEXYZ).OKLAB)).B = 0.0259040424655478 * Cbrt (2026284586524591620357333094198315505441500112073476024702237111365703143879308921519497927368803369 / 4780800000000000000000000000000000000000000000000000000000000000000000000000000000000000000000000000)
      + 0.7827717124575296 * Cbrt (6699921345525019619777919460246716005623981302196858699758159726527313293383981190755585214982006241 / 11952000000000000000000000000000000000000000000000000000000000000000000000000000000000000000000000000) + -0.8086757549230774 * Cbrt (13073653968367692169596050888078851782290774961148007256156339600243751558509684381224335511861664097 / 23904000000000000000000000000000000000000000000000000000000000000000000000000000000000000000000000000) := by
    rw [hy2]; rfl
  have hu2 := Cbrt_bounds
    (show (7511614443721060141806 / 10 ^ 22 : ℝ) * (7511614443721060141806 / 10 ^ 22) * (7511614443721060141806 / 10 ^ 22) ≤ 2026284586524591620357333094198315505441500112073476024702237111365703143879308921519497927368803369 / 4780800000000000000000000000000000000000000000000000000000000000000000000000000000000000000000000000 by norm_num)
    (show (2026284586524591620357333094198315505441500112073476024702237111365703143879308921519497927368803369 / 4780800000000000000000000000000000000000000000000000000000000000000000000000000000000000000000000000 : ℝ) ≤ (7511614443721060141808 / 10 ^ 22) * (7511614443721060141808 / 10 ^ 22) * (7511614443721060141808 / 10 ^ 22) by norm_num)
  have hv2 := Cbrt_bounds
    (show (8245361604527528724658 / 10 ^ 22 : ℝ) * (8245361604527528724658 / 10 ^ 22) * (8245361604527528724658 / 10 ^ 22) ≤ 6699921345525019619777919460246716005623981302196858699758159726527313293383981190755585214982006241 / 11952000000000000000000000000000000000000000000000000000000000000000000000000000000000000000000000000 by norm_num)
    (show (6699921345525019619777919460246716005623981302196858699758159726527313293383981190755585214982006241 / 11952000000000000000000000000000000000000000000000000000000000000000000000000000000000000000000000000 : ℝ) ≤ (8245361604527528724660 / 10 ^ 22) * (8245361604527528724660 / 10 ^ 22) * (8245361604527528724660 / 10 ^ 22) by norm_num)
  have hw2 := Cbrt_bounds
    (show (8177906394836930129309 / 10 ^ 22 : ℝ) * (8177906394836930129309 / 10 ^ 22) * (8177906394836930129309 / 10 ^ 22) ≤ 13073653968367692169596050888078851782290774961148007256156339600243751558509684381224335511861664097 / 23904000000000000000000000000000000000000000000000000000000000000000000000000000000000000000000000000 by norm_num)
    (show (13073653968367692169596050888078851782290774961148007256156339600243751558509684381224335511861664097 / 23904000000000000000000000000000000000000000000000000000000000000000000000000000000000000000000000000 : ℝ) ≤ (8177906394836930129311 / 10 ^ 22) * (8177906394836930129311 / 10 ^ 22) * (8177906394836930129311 / 10 ^ 22) by norm_num)
  have hyL1 : (8091216063191185561121303973 / 10 ^ 28 : ℝ) ≤ ((((LSRGB.mk 0 (415451603038117384259429202433222243754107336130142836610938525875932899578400042996771 / 562438400000000000000000000000000000000000000000000000000000000000000000000000000000000) (45918717892378060276180950134965618891963135850138075400664658735158027616592790901 / 85376000000000000000000000000000000000000000000000000000000000000000000000000000000)).CIEXYZ).OKLAB)).L := by
    rw [hy2L]
    linarith [hu2.1, hu2.2, hv2.1, hv2.2, hw2.1, hw2.2]
  have hyL2 : ((((LSRGB.mk 0 (415451603038117384259429202433222243754107336130142836610938525875932899578400042996771 / 562438400000000000000000000000000000000000000000000000000000000000000000000000000000000) (45918717892378060276180950134965618891963135850138075400664658735158027616592790901 / 85376000000000000000000000000000000000000000000000000000000000000000000000000000000)).CIEXYZ).OKLAB)).L ≤ (8091216063191185561123320262 / 10 ^ 28 : ℝ) := by
    rw [hy2L]
    linarith [hu2.1, hu2.2, hv2.1, hv2.2, hw2.1, hw2.2]
  have hyA1 : (-(1481745700418242656979281819 / 10 ^ 28) : ℝ) ≤ ((((LSRGB.mk 0 (415451603038117384259429202433222243754107336130142836610938525875932899578400042996771 / 562438400000000000000000000000000000000000000000000000000000000000000000000000000000000) (45918717892378060276180950134965618891963135850138075400664658735158027616592790901 / 85376000000000000000000000000000000000000000000000000000000000000000000000000000000)).CIEXYZ).OKLAB)).A := by
    rw [hy2A]
    linarith [hu2.1, hu2.2, hv2.1, hv2.2, hw2.1, hw2.2]
  have hyA2 : ((((LSRGB.mk 0 (415451603038117384259429202433222243754107336130142836610938525875932899578400042996771 / 562438400000000000000000000000000000000000000000000000000000000000000000000000000000000) (45918717892378060276180950134965618891963135850138075400664658735158027616592790901 / 85376000000000000000000000000000000000000000000000000000000000000000000000000000000)).CIEXYZ).OKLAB)).A ≤ (-(1481745700418242656969567449 / 10 ^ 28) : ℝ) := by
    rw [hy2A]
    linarith [hu2.1, hu2.2, hv2.1, hv2.2, hw2.1, hw2.2]
  have hyB1 : (35542375007533412869652310 / 10 ^ 28 : ℝ) ≤ ((((LSRGB.mk 0 (415451603038117384259429202433222243754107336130142836610938525875932899578400042996771 / 562438400000000000000000000000000000000000000000000000000000000000000000000000000000000) (45918717892378060276180950134965618891963135850138075400664658735158027616592790901 / 85376000000000000000000000000000000000000000000000000000000000000000000000000000000)).CIEXYZ).OKLAB)).B := by
    rw [hy2B]
    linarith [hu2.1, hu2.2, hv2.1, hv2.2, hw2.1, hw2.2]
  have hyB2 : ((((LSRGB.mk 0 (415451603038117384259429202433222243754107336130142836610938525875932899578400042996771 / 562438400000000000000000000000000000000000000000000000000000000000000000000000000000000) (45918717892378060276180950134965618891963135850138075400664658735158027616592790901 / 85376000000000000000000000000000000000000000000000000000000000000000000000000000000)).CIEXYZ).OKLAB)).B ≤ (35542375007533412872887014 / 10 ^ 28 : ℝ) := by
    rw [hy2B]
    linarith [hu2.1, hu2.2, hv2.1, hv2.2, hw2.1, hw2.2]
  have hE2eq : gmE2 (gmInit (OKLCH.mk (4 / 5) (331115 / 1000000) 180)) = Real.sqrt ((((((LSRGB.mk 0 (415451603038117384259429202433222243754107336130142836610938525875932899578400042996771 / 562438400000000000000000000000000000000000000000000000000000000000000000000000000000000) (45918717892378060276180950134965618891963135850138075400664658735158027616592790901 / 85376000000000000000000000000000000000000000000000000000000000000000000000000000000)).CIEXYZ).OKLAB)).L - 4 / 5) * (((((LSRGB.mk 0 (415451603038117384259429202433222243754107336130142836610938525875932899578400042996771 / 562438400000000000000000000000000000000000000000000000000000000000000000000000000000000) (45918717892378060276180950134965618891963135850138075400664658735158027616592790901 / 85376000000000000000000000000000000000000000000000000000000000000000000000000000000)).CIEXYZ).OKLAB)).L - 4 / 5) + (((((LSRGB.mk 0 (415451603038117384259429202433222243754107336130142836610938525875932899578400042996771 / 562438400000000000000000000000000000000000000000000000000000000000000000000000000000000) (45918717892378060276180950134965618891963135850138075400664658735158027616592790901 / 85376000000000000000000000000000000000000000000000000000000000000000000000000000000)).CIEXYZ).OKLAB)).A - -(331115 / 2000000)) * (((((LSRGB.mk 0 (415451603038117384259429202433222243754107336130142836610938525875932899578400042996771 / 562438400000000000000000000000000000000000000000000000000000000000000000000000000000000) (45918717892378060276180950134965618891963135850138075400664658735158027616592790901 / 85376000000000000000000000000000000000000000000000000000000000000000000000000000000)).CIEXYZ).OKLAB)).A - -(331115 / 2000000)) + (((((LSRGB.mk 0 (415451603038117384259429202433222243754107336130142836610938525875932899578400042996771 / 562438400000000000000000000000000000000000000000000000000000000000000000000000000000000) (45918717892378060276180950134965618891963135850138075400664658735158027616592790901 / 85376000000000000000000000000000000000000000000000000000000000000000000000000000000)).CIEXYZ).OKLAB)).B - 0) * (((((LSRGB.mk 0 (415451603038117384259429202433222243754107336130142836610938525875932899578400042996771 / 562438400000000000000000000000000000000000000000000000000000000000000000000000000000000) (45918717892378060276180950134965618891963135850138075400664658735158027616592790901 / 85376000000000000000000000000000000000000000000000000000000000000000000000000000000)).CIEXYZ).OKLAB)).B - 0)) := by
    unfold gmE2 DeltaE Sub Dot OKLAB.vec
    rw [hclip2, hcurlab]
  have hd1a : (91216063191185561121303973 / 10 ^ 28 : ℝ) ≤ ((((LSRGB.mk 0 (415451603038117384259429202433222243754107336130142836610938525875932899578400042996771 / 562438400000000000000000000000000000000000000000000000000000000000000000000000000000000) (45918717892378060276180950134965618891963135850138075400664658735158027616592790901 / 85376000000000000000000000000000000000000000000000000000000000000000000000000000000)).CIEXYZ).OKLAB)).L - 4 / 5 := by linarith [hyL1]
  have hd1b : ((((LSRGB.mk 0 (415451603038117384259429202433222243754107336130142836610938525875932899578400042996771 / 562438400000000000000000000000000000000000000000000000000000000000000000000000000000000) (45918717892378060276180950134965618891963135850138075400664658735158027616592790901 / 85376000000000000000000000000000000000000000000000000000000000000000000000000000000)).CIEXYZ).OKLAB)).L - 4 / 5 ≤ (91216063191185561123320262 / 10 ^ 28 : ℝ) := by linarith [hyL2]
  have hd2a : (173829299581757343020718181 / 10 ^ 28 : ℝ) ≤ ((((LSRGB.mk 0 (415451603038117384259429202433222243754107336130142836610938525875932899578400042996771 / 562438400000000000000000000000000000000000000000000000000000000000000000000000000000000) (45918717892378060276180950134965618891963135850138075400664658735158027616592790901 / 85376000000000000000000000000000000000000000000000000000000000000000000000000000000)).CIEXYZ).OKLAB)).A - -(331115 / 2000000) := by linarith [hyA1]
  have hd2b : ((((LSRGB.mk 0 (415451603038117384259429202433222243754107336130142836610938525875932899578400042996771 / 562438400000000000000000000000000000000000000000000000000000000000000000000000000000000) (45918717892378060276180950134965618891963135850138075400664658735158027616592790901 / 85376000000000000000000000000000000000000000000000000000000000000000000000000000000)).CIEXYZ).OKLAB)).A - -(331115 / 2000000) ≤ (173829299581757343030432551 / 10 ^ 28 : ℝ) := by linarith [hyA2]
  have hd3a : (35542375007533412869652310 / 10 ^ 28 : ℝ) ≤ ((((LSRGB.mk 0 (415451603038117384259429202433222243754107336130142836610938525875932899578400042996771 / 562438400000000000000000000000000000000000000000000000000000000000000000000000000000000) (45918717892378060276180950134965618891963135850138075400664658735158027616592790901 / 85376000000000000000000000000000000000000000000000000000000000000000000000000000000)).CIEXYZ).OKLAB)).B - 0 := by linarith [hyB1]
  have hd3b : ((((LSRGB.mk 0 (415451603038117384259429202433222243754107336130142836610938525875932899578400042996771 / 562438400000000000000000000000000000000000000000000000000000000000000000000000000000000) (45918717892378060276180950134965618891963135850138075400664658735158027616592790901 / 85376000000000000000000000000000000000000000000000000000000000000000000000000000000)).CIEXYZ).OKLAB)).B - 0 ≤ (35542375007533412872887014 / 10 ^ 28 : ℝ) := by linarith [hyB2]
  have hsq1 := sq_bounds (show (0 : ℝ) ≤ 91216063191185561121303973 / 10 ^ 28 by norm_num) hd1a hd1b
  have hsq2 := sq_bounds (show (0 : ℝ) ≤ 173829299581757343020718181 / 10 ^ 28 by norm_num) hd2a hd2b
  have hsq3 := sq_bounds (show (0 : ℝ) ≤ 35542375007533412869652310 / 10 ^ 28 by norm_num) hd3a hd3b
  have hEwin1 : gmE2 (gmInit (OKLCH.mk (4 / 5) (331115 / 1000000) 180)) < JND := by
    rw [hE2eq, hJnd]
    refine (Real.sqrt_lt' (by norm_num)).mpr ?_
    linarith [hsq1.2, hsq2.2, hsq3.2]
  have hEwin2 : JND - gmE2 (gmInit (OKLCH.mk (4 / 5) (331115 / 1000000) 180)) < gmEps := by
    rw [hE2eq, hJnd, hEps]
    have hgt : (199 / 10000 : ℝ) < Real.sqrt ((((((LSRGB.mk 0 (415451603038117384259429202433222243754107336130142836610938525875932899578400042996771 / 562438400000000000000000000000000000000000000000000000000000000000000000000000000000000) (45918717892378060276180950134965618891963135850138075400664658735158027616592790901 / 85376000000000000000000000000000000000000000000000000000000000000000000000000000000)).CIEXYZ).OKLAB)).L - 4 / 5) * (((((LSRGB.mk 0 (415451603038117384259429202433222243754107336130142836610938525875932899578400042996771 / 562438400000000000000000000000000000000000000000000000000000000000000000000000000000000) (45918717892378060276180950134965618891963135850138075400664658735158027616592790901 / 85376000000000000000000000000000000000000000000000000000000000000000000000000000000)).CIEXYZ).OKLAB)).L - 4 / 5) + (((((LSRGB.mk 0 (415451603038117384259429202433222243754107336130142836610938525875932899578400042996771 / 562438400000000000000000000000000000000000000000000000000000000000000000000000000000000) (45918717892378060276180950134965618891963135850138075400664658735158027616592790901 / 85376000000000000000000000000000000000000000000000000000000000000000000000000000000)).CIEXYZ).OKLAB)).A - -(331115 / 2000000)) * (((((LSRGB.mk 0 (415451603038117384259429202433222243754107336130142836610938525875932899578400042996771 / 562438400000000000000000000000000000000000000000000000000000000000000000000000000000000) (45918717892378060276180950134965618891963135850138075400664658735158027616592790901 / 85376000000000000000000000000000000000000000000000000000000000000000000000000000000)).CIEXYZ).OKLAB)).A - -(331115 / 2000000)) + (((((LSRGB.mk 0 (415451603038117384259429202433222243754107336130142836610938525875932899578400042996771 / 562438400000000000000000000000000000000000000000000000000000000000000000000000000000000) (45918717892378060276180950134965618891963135850138075400664658735158027616592790901 / 85376000000000000000000000000000000000000000000000000000000000000000000000000000000)).CIEXYZ).OKLAB)).B - 0) * (((((LSRGB.mk 0 (415451603038117384259429202433222243754107336130142836610938525875932899578400042996771 / 562438400000000000000000000000000000000000000000000000000000000000000000000000000000000) (45918717892378060276180950134965618891963135850138075400664658735158027616592790901 / 85376000000000000000000000000000000000000000000000000000000000000000000000000000000)).CIEXYZ).OKLAB)).B - 0)) := by
      refine (Real.lt_sqrt (by norm_num)).mpr ?_
      linarith [hsq1.1, hsq2.1, hsq3.1]
    linarith
  have hstep : gmStepBody (gmInit (OKLCH.mk (4 / 5) (331115 / 1000000) 180))
      = Sum.inl ((((gmClipped (gmInit (OKLCH.mk (4 / 5) (331115 / 1000000) 180))).CIEXYZ).OKLAB).OKLCH) := by
    unfold gmStepBody
    rw [if_neg (show ¬ ((gmInit (OKLCH.mk (4 / 5) (331115 / 1000000) 180)).minInGamut ∧ (gmCurRGB (gmInit (OKLCH.mk (4 / 5) (331115 / 1000000) 180))).InGamut)
        from fun hc => hnotin hc.2),
      if_pos hEwin1, if_pos hEwin2]
  have hwidth : ¬ ((gmInit (OKLCH.mk (4 / 5) (331115 / 1000000) 180)).cmax - (gmInit (OKLCH.mk (4 / 5) (331115 / 1000000) 180)).cmin ≤ gmEps) := by
    show ¬ ((331115 / 1000000 : ℝ) - 0 ≤ gmEps)
    rw [hEps]
    norm_num
  have hceil : ⌈(331115 / 1000000 : ℝ) / (1 / 10000)⌉₊ = 3312 := by
    rw [Nat.ceil_eq_iff (by norm_num)]
    constructor <;> norm_num
  have hfuel : gmFuel (OKLCH.mk (4 / 5) (331115 / 1000000) 180) = 3313 := by
    unfold gmFuel
    rw [show (OKLCH.mk (4 / 5) (331115 / 1000000) 180).C = (331115 / 1000000 : ℝ) from rfl, hEps, hceil]
  have hloop : gmLoop 3313 (gmInit (OKLCH.mk (4 / 5) (331115 / 1000000) 180))
      = some ((((gmClipped (gmInit (OKLCH.mk (4 / 5) (331115 / 1000000) 180))).CIEXYZ).OKLAB).OKLCH) := by
    show gmLoop (3312 + 1) (gmInit (OKLCH.mk (4 / 5) (331115 / 1000000) 180)) = _
    rw [gmLoop, if_neg hwidth, hstep]
  have hmap : (OKLCH.mk (4 / 5) (331115 / 1000000) 180).GamutMappedLSRGB = (((((LSRGB.mk 0 (415451603038117384259429202433222243754107336130142836610938525875932899578400042996771 / 562438400000000000000000000000000000000000000000000000000000000000000000000000000000000) (45918717892378060276180950134965618891963135850138075400664658735158027616592790901 / 85376000000000000000000000000000000000000000000000000000000000000000000000000000000)).CIEXYZ).OKLAB)).OKLCH) := by
    unfold OKLCH.GamutMappedLSRGB
    rw [if_neg (show ¬ ((4 / 5 : ℝ) < 0 ∨ (4 / 5 : ℝ) > 1) by norm_num)]
    rw [if_neg hEge, hfuel, hloop]
    rw [show (some ((((gmClipped (gmInit (OKLCH.mk (4 / 5) (331115 / 1000000) 180))).CIEXYZ).OKLAB).OKLCH)).getD
        ((((gmClip (OKLCH.mk (4 / 5) (331115 / 1000000) 180)).CIEXYZ).OKLAB).OKLCH)
        = (((gmClipped (gmInit (OKLCH.mk (4 / 5) (331115 / 1000000) 180))).CIEXYZ).OKLAB).OKLCH from rfl]
    rw [hclip2]
  have hchroma : ¬ Real.sqrt (((((LSRGB.mk 0 (415451603038117384259429202433222243754107336130142836610938525875932899578400042996771 / 562438400000000000000000000000000000000000000000000000000000000000000000000000000000000) (45918717892378060276180950134965618891963135850138075400664658735158027616592790901 / 85376000000000000000000000000000000000000000000000000000000000000000000000000000000)).CIEXYZ).OKLAB)).A * ((((LSRGB.mk 0 (415451603038117384259429202433222243754107336130142836610938525875932899578400042996771 / 562438400000000000000000000000000000000000000000000000000000000000000000000000000000000) (45918717892378060276180950134965618891963135850138075400664658735158027616592790901 / 85376000000000000000000000000000000000000000000000000000000000000000000000000000000)).CIEXYZ).OKLAB)).A + ((((LSRGB.mk 0 (415451603038117384259429202433222243754107336130142836610938525875932899578400042996771 / 562438400000000000000000000000000000000000000000000000000000000000000000000000000000000) (45918717892378060276180950134965618891963135850138075400664658735158027616592790901 / 85376000000000000000000000000000000000000000000000000000000000000000000000000000000)).CIEXYZ).OKLAB)).B * ((((LSRGB.mk 0 (415451603038117384259429202433222243754107336130142836610938525875932899578400042996771 / 562438400000000000000000000000000000000000000000000000000000000000000000000000000000000) (45918717892378060276180950134965618891963135850138075400664658735158027616592790901 / 85376000000000000000000000000000000000000000000000000000000000000000000000000000000)).CIEXYZ).OKLAB)).B) ≤ 0.000004 := by
    intro hle
    have h1 : |((((LSRGB.mk 0 (415451603038117384259429202433222243754107336130142836610938525875932899578400042996771 / 562438400000000000000000000000000000000000000000000000000000000000000000000000000000000) (45918717892378060276180950134965618891963135850138075400664658735158027616592790901 / 85376000000000000000000000000000000000000000000000000000000000000000000000000000000)).CIEXYZ).OKLAB)).A| ≤ Real.sqrt (((((LSRGB.mk 0 (415451603038117384259429202433222243754107336130142836610938525875932899578400042996771 / 562438400000000000000000000000000000000000000000000000000000000000000000000000000000000) (45918717892378060276180950134965618891963135850138075400664658735158027616592790901 / 85376000000000000000000000000000000000000000000000000000000000000000000000000000000)).CIEXYZ).OKLAB)).A * ((((LSRGB.mk 0 (415451603038117384259429202433222243754107336130142836610938525875932899578400042996771 / 562438400000000000000000000000000000000000000000000000000000000000000000000000000000000) (45918717892378060276180950134965618891963135850138075400664658735158027616592790901 / 85376000000000000000000000000000000000000000000000000000000000000000000000000000000)).CIEXYZ).OKLAB)).A + ((((LSRGB.mk 0 (415451603038117384259429202433222243754107336130142836610938525875932899578400042996771 / 562438400000000000000000000000000000000000000000000000000000000000000000000000000000000) (45918717892378060276180950134965618891963135850138075400664658735158027616592790901 / 85376000000000000000000000000000000000000000000000000000000000000000000000000000000)).CIEXYZ).OKLAB)).B * ((((LSRGB.mk 0 (415451603038117384259429202433222243754107336130142836610938525875932899578400042996771 / 562438400000000000000000000000000000000000000000000000000000000000000000000000000000000) (45918717892378060276180950134965618891963135850138075400664658735158027616592790901 / 85376000000000000000000000000000000000000000000000000000000000000000000000000000000)).CIEXYZ).OKLAB)).B) := by
      rw [← Real.sqrt_mul_self_eq_abs]
      exact Real.sqrt_le_sqrt (by linarith [mul_self_nonneg (((((LSRGB.mk 0 (415451603038117384259429202433222243754107336130142836610938525875932899578400042996771 / 562438400000000000000000000000000000000000000000000000000000000000000000000000000000000) (45918717892378060276180950134965618891963135850138075400664658735158027616592790901 / 85376000000000000000000000000000000000000000000000000000000000000000000000000000000)).CIEXYZ).OKLAB)).B)])
    have h2 := neg_abs_le (((((LSRGB.mk 0 (415451603038117384259429202433222243754107336130142836610938525875932899578400042996771 / 562438400000000000000000000000000000000000000000000000000000000000000000000000000000000) (45918717892378060276180950134965618891963135850138075400664658735158027616592790901 / 85376000000000000000000000000000000000000000000000000000000000000000000000000000000)).CIEXYZ).OKLAB)).A)
    linarith [hyA2]
  have hWlab : (((((LSRGB.mk 0 (415451603038117384259429202433222243754107336130142836610938525875932899578400042996771 / 562438400000000000000000000000000000000000000000000000000000000000000000000000000000000) (45918717892378060276180950134965618891963135850138075400664658735158027616592790901 / 85376000000000000000000000000000000000000000000000000000000000000000000000000000000)).CIEXYZ).OKLAB)).OKLCH).OKLAB = (((LSRGB.mk 0 (415451603038117384259429202433222243754107336130142836610938525875932899578400042996771 / 562438400000000000000000000000000000000000000000000000000000000000000000000000000000000) (45918717892378060276180950134965618891963135850138075400664658735158027616592790901 / 85376000000000000000000000000000000000000000000000000000000000000000000000000000000)).CIEXYZ).OKLAB) :=
    OKLCH_OKLAB_of_chromatic _ hchroma
  have hout := c1aux_out (((LSRGB.mk 0 (415451603038117384259429202433222243754107336130142836610938525875932899578400042996771 / 562438400000000000000000000000000000000000000000000000000000000000000000000000000000000) (45918717892378060276180950134965618891963135850138075400664658735158027616592790901 / 85376000000000000000000000000000000000000000000000000000000000000000000000000000000)).CIEXYZ).OKLAB) hyL1 hyL2 hyA1 hyA2 hyB1 hyB2
  have hclip1e : (((((OKLCH.mk (4 / 5) (331115 / 1000000) 180).OKLAB).CIEXYZ).LSRGB).ClipToGamut) = (LSRGB.mk 0 (66424129058838731464141022044909785429975131339508675897570045291932899578400042996771 / 70304800000000000000000000000000000000000000000000000000000000000000000000000000000000) (114438406952891740410543242406082770458110309233846119848268219968002524715263027119 / 202768000000000000000000000000000000000000000000000000000000000000000000000000000000)) := hclip1
  rintro (hin | hde)
  · rw [hmap, hWlab] at hin
    unfold LSRGB.InGamut at hin
    exact absurd hin.2.2.2.1 (not_le.mpr hout.1)
  · rw [hmap, hWlab, hclip1e, hJnd] at hde
    have houtL := c1aux_okoutL ((((((LSRGB.mk 0 (415451603038117384259429202433222243754107336130142836610938525875932899578400042996771 / 562438400000000000000000000000000000000000000000000000000000000000000000000000000000000) (45918717892378060276180950134965618891963135850138075400664658735158027616592790901 / 85376000000000000000000000000000000000000000000000000000000000000000000000000000000)).CIEXYZ).OKLAB).CIEXYZ)).LSRGB)
      hout.2.1 hout.1.le hout.2.2.1.1 hout.2.2.1.2 hout.2.2.2.1 hout.2.2.2.2
    have habs := deltaE_ge_abs_L (((((((((LSRGB.mk 0 (415451603038117384259429202433222243754107336130142836610938525875932899578400042996771 / 562438400000000000000000000000000000000000000000000000000000000000000000000000000000000) (45918717892378060276180950134965618891963135850138075400664658735158027616592790901 / 85376000000000000000000000000000000000000000000000000000000000000000000000000000000)).CIEXYZ).OKLAB).CIEXYZ)).LSRGB).CIEXYZ)).OKLAB) (((LSRGB.mk 0 (66424129058838731464141022044909785429975131339508675897570045291932899578400042996771 / 70304800000000000000000000000000000000000000000000000000000000000000000000000000000000) (114438406952891740410543242406082770458110309233846119848268219968002524715263027119 / 202768000000000000000000000000000000000000000000000000000000000000000000000000000000)).CIEXYZ).OKLAB)
    have hneg := neg_abs_le (((((((((((LSRGB.mk 0 (415451603038117384259429202433222243754107336130142836610938525875932899578400042996771 / 562438400000000000000000000000000000000000000000000000000000000000000000000000000000000) (45918717892378060276180950134965618891963135850138075400664658735158027616592790901 / 85376000000000000000000000000000000000000000000000000000000000000000000000000000000)).CIEXYZ).OKLAB).CIEXYZ)).LSRGB).CIEXYZ)).OKLAB)).L - ((((LSRGB.mk 0 (66424129058838731464141022044909785429975131339508675897570045291932899578400042996771 / 70304800000000000000000000000000000000000000000000000000000000000000000000000000000000) (114438406952891740410543242406082770458110309233846119848268219968002524715263027119 / 202768000000000000000000000000000000000000000000000000000000000000000000000000000000)).CIEXYZ).OKLAB)).L)
    linarith [houtL, hy1L_lo]


end

end Colorspace
